import Mathlib

/-!
Verification of the Interactive Session Automation & Response Capture Engine
(`chatbot_stealth_agent.py`) against its natural-language specification.

The embedding models:
* the response completion monitor `_wait_for_response` as a step function on a
  monitor state, driven by a sequence of polls (each poll records the single
  instant at which that loop iteration observes the page: the elapsed time,
  the extracted response text and the result of the bot-detection check);
* the scheduler `run_evaluation` as a recursion over rows and chatbots that
  emits a trace of query events, with the outcome of each `query_chatbot`
  call supplied by an oracle indexed by the global query counter;
* `query_chatbot` itself as a sequence of phases over an oracle world in the
  `Except` style (an `Except.error` models a raised Python exception);
* the pagination capture loop of `_capture_response_screenshots`.

Time is modelled in integer milliseconds (`ℤ`): the Python code works with
`time.time()` floats in seconds, and every timing constant of the monitor is
a multiple of 1 ms, so the source constants 0.5 s, 5 s, 8 s and 120 s become
500, 5000, 8000 and 120000. The monitor's start time is normalised to 0, so
a poll's `t` is the elapsed time at that iteration. All `time.time()` calls
inside one loop iteration are modelled as returning the same instant, and
the `while` guard of an iteration is checked at that same instant.
-/

/-- Character-list test used to implement Python's substring operator:
`listStarts n h` holds when `n` is an initial segment of `h`. -/
def listStarts : List Char → List Char → Bool
  | [], _ => true
  | _ :: _, [] => false
  | a :: as, b :: bs => a == b && listStarts as bs

/-- Occurrence test on character lists: does `needle` occur contiguously in
the list? -/
def listOccurs (needle : List Char) : List Char → Bool
  | [] => listStarts needle []
  | b :: bs => listStarts needle (b :: bs) || listOccurs needle bs

/-- Python's `needle in hay` on strings. -/
def pyIn (needle hay : String) : Bool :=
  listOccurs needle.data hay.data

/-- Python's `s.startswith(pre)`. -/
def pyStartsWith (s pre : String) : Bool :=
  listStarts pre.data s.data

/-- Python's `str.strip()`: drop whitespace from both ends. -/
def pyStrip (s : String) : String :=
  ⟨((s.data.dropWhile Char.isWhitespace).reverse.dropWhile Char.isWhitespace).reverse⟩

/-- Python's `s[:n]` (slice of the first `n` characters). -/
def pySlice (s : String) (n : ℕ) : String :=
  ⟨s.data.take n⟩

/-- Python's `s[-n:]` for `n > 0` (the last `n` characters; the whole string
when it is shorter than `n`). -/
def pyTakeRight (s : String) (n : ℕ) : String :=
  ⟨(s.data.reverse.take n).reverse⟩

/-- Replace every occurrence of the character `c` by `d` (Python's
`str.replace` where the needle is the single character `c`). -/
def charReplace (s : String) (c d : Char) : String :=
  ⟨s.data.map (fun x => if x = c then d else x)⟩

/-- Remove every occurrence of the character `c` (Python's
`str.replace(c, "")`). -/
def charRemove (s : String) (c : Char) : String :=
  ⟨s.data.filter (fun x => x ≠ c)⟩

deriving instance DecidableEq for Except

/-- Python's `str.lower()`, character by character. -/
def pyLower (s : String) : String :=
  ⟨s.data.map Char.toLower⟩

/-- Python truthiness of an optional string (`None` and `""` are falsy). -/
def optStrTruthy : Option String → Bool
  | none => false
  | some s => !s.isEmpty

/- ====================================================================
   Response Completion Monitor (`_wait_for_response`)
   ==================================================================== -/

/-- `STABILITY_THRESHOLD = 8` seconds (8000 ms): response stable for this
long means complete. -/
def STABILITY_THRESHOLD : ℤ := 8000

/-- `MIN_RESPONSE_LENGTH = 30`: minimum chars before considering stable. -/
def MIN_RESPONSE_LENGTH : ℕ := 30

/-- `BOT_CHECK_INTERVAL = 5` seconds (5000 ms) between bot-detection checks
inside the wait loop. -/
def BOT_CHECK_INTERVAL : ℤ := 5000

/-- The moment-text-stopped-growing settle threshold: the literal `0.5`
seconds (500 ms) in the latency-capture condition. -/
def SETTLE_THRESHOLD : ℤ := 500

/-- One iteration's observation of the page inside the wait loop: the elapsed
time `t` (ms) at which the iteration runs, the extracted response text
(`current_response` after the Copilot-said / selector extraction), and the
result a bot-detection check would return at that instant. -/
structure Poll where
  t : ℤ
  text : String
  bot : Bool
  deriving DecidableEq, Repr

/-- The mutable locals of `_wait_for_response`, with the start time
normalised to 0. -/
structure MonitorState where
  lastResponse : String
  lastResponseTime : ℤ
  lastGrowthTime : ℤ
  accurateLatency : ℤ
  latencyCaptured : Bool
  lastBotCheck : ℤ
  deriving DecidableEq, Repr

/-- The locals at entry of `_wait_for_response`: empty tracked response, both
timestamps at the start instant, latency 0 and not captured. -/
def initState : MonitorState :=
  { lastResponse := ""
    lastResponseTime := 0
    lastGrowthTime := 0
    accurateLatency := 0
    latencyCaptured := false
    lastBotCheck := 0 }

/-- The `last_bot_check = elapsed` update performed when the periodic bot
check fires. -/
def botUpd (s : MonitorState) (p : Poll) : MonitorState :=
  if BOT_CHECK_INTERVAL ≤ p.t - s.lastBotCheck then { s with lastBotCheck := p.t } else s

/-- Does the extracted text contain a still-generating marker
(`"Thinking" in current_response or "Generating" in current_response`)? -/
def hasLoadingMarker (text : String) : Bool :=
  pyIn "Thinking" text || pyIn "Generating" text

/-- The high-resolution latency capture block run on an unchanged poll: when
not yet captured, the text has not grown for at least the settle threshold
and is long enough, store `last_growth_time - start_time` as
`accurate_latency` and set the captured flag. -/
def captureUpd (s1 : MonitorState) (p : Poll) : MonitorState :=
  if ¬ s1.latencyCaptured = true ∧ SETTLE_THRESHOLD ≤ p.t - s1.lastGrowthTime ∧
      MIN_RESPONSE_LENGTH ≤ p.text.length then
    { s1 with accurateLatency := s1.lastGrowthTime, latencyCaptured := true }
  else s1

/-- One iteration of the wait loop's body, from the periodic bot check to the
end of the stability analysis. `Sum.inr` is a `return` from
`_wait_for_response` (the pair `(response_text, latency)`), `Sum.inl` is the
state carried into the next iteration. -/
def step (s : MonitorState) (p : Poll) : MonitorState ⊕ (String × ℤ) :=
  if BOT_CHECK_INTERVAL ≤ p.t - s.lastBotCheck ∧ p.bot then
    Sum.inr ("ERROR: Bot detected - human verification required", 0)
  else
    let s1 := botUpd s p
    if hasLoadingMarker p.text then
      Sum.inl { s1 with lastResponse := "", lastResponseTime := p.t }
    else if p.text.length < MIN_RESPONSE_LENGTH then
      Sum.inl s1
    else if p.text = s1.lastResponse then
      if STABILITY_THRESHOLD ≤ p.t - s1.lastResponseTime then
        Sum.inr (pyStrip p.text,
          if (captureUpd s1 p).latencyCaptured then (captureUpd s1 p).accurateLatency
          else p.t - STABILITY_THRESHOLD)
      else
        Sum.inl (captureUpd s1 p)
    else
      Sum.inl { s1 with lastResponse := p.text, lastResponseTime := p.t,
                        lastGrowthTime := p.t, latencyCaptured := false }

/-- The wait loop: process polls while the guard `elapsed < timeout` holds.
`Sum.inr` is an early `return`; `Sum.inl (s, some tv)` means the guard failed
at time `tv` with locals `s`; `Sum.inl (s, none)` means the supplied
observation sequence ended while the guard still held. -/
def runPolls (timeout : ℤ) : MonitorState → List Poll → (MonitorState × Option ℤ) ⊕ (String × ℤ)
  | s, [] => Sum.inl (s, none)
  | s, p :: ps =>
    if p.t < timeout then
      match step s p with
      | Sum.inr r => Sum.inr r
      | Sum.inl s' => runPolls timeout s' ps
    else Sum.inl (s, some p.t)

/-- Run a prefix of the loop, requiring that no iteration returns and the
guard never fails: the state at the end of the prefix. -/
def runSteps (timeout : ℤ) : MonitorState → List Poll → Option MonitorState
  | s, [] => some s
  | s, p :: ps =>
    if p.t < timeout then
      match step s p with
      | Sum.inr _ => none
      | Sum.inl s' => runSteps timeout s' ps
    else none

/-- The code after the loop: return the partial text when the tracked
response is non-empty and long enough, else the timeout error. `tEnd` is the
instant of the final `time.time()` call. -/
def timeoutResult (s : MonitorState) (tEnd : ℤ) : String × ℤ :=
  if s.lastResponse ≠ "" ∧ MIN_RESPONSE_LENGTH ≤ s.lastResponse.length then
    (pyStrip s.lastResponse, if s.latencyCaptured then s.accurateLatency else tEnd)
  else
    ("ERROR: Timeout waiting for response", 0)

/-- `_wait_for_response`, driven by the poll sequence `polls`; `tEnd` is the
time of the post-loop `time.time()` call used when the observation sequence
ends before the guard fails. -/
def wait_for_response (timeout : ℤ) (polls : List Poll) (tEnd : ℤ) : String × ℤ :=
  match runPolls timeout initState polls with
  | Sum.inr r => r
  | Sum.inl (s, te) => timeoutResult s (te.getD tEnd)

/- ====================================================================
   Query Scheduler (`run_evaluation`)
   ==================================================================== -/

/-- One input row of the V4 CSV, with the fields `run_evaluation` reads:
`synthetic_prompt_id`, `synthetic_prompt`, `context_url`, `context_text`
(missing CSV fields read as `""`). -/
structure Row where
  id : String
  prompt : String
  contextUrl : String
  contextText : String
  deriving DecidableEq, Repr

instance : Inhabited Row := ⟨⟨"", "", "", ""⟩⟩

/-- The canonical combined prompt built once per row before the chatbot
loop: `Reference: <url>` context when a context URL is present, else the
context text truncated to 1500 characters when longer than 50 characters;
the context (when any) is joined with the prompt as
`Context: <context>\n\n---\n\n<prompt>`; the result is truncated to 2000
characters. -/
def buildFullPrompt (r : Row) : String :=
  let context :=
    if r.contextUrl ≠ "" then "Reference: " ++ r.contextUrl
    else if r.contextText ≠ "" ∧ 50 < r.contextText.length then pySlice r.contextText 1500
    else ""
  let fp :=
    if context ≠ "" then "Context: " ++ context ++ "\n\n---\n\n" ++ r.prompt
    else r.prompt
  pySlice fp 2000

/-- The outcome of one `query_chatbot` call as the scheduler records it:
the response text and the `was_bot_detected` flag. -/
structure QueryOut where
  response : String
  bot : Bool
  deriving DecidableEq, Repr

/-- One emitted query: its pass (`round = 0` is the primary pass, `round = k`
the k-th retry round), the row index, the chatbot queried, and the exact
prompt string passed to `query_chatbot`. -/
structure Ev where
  round : ℕ
  rowIdx : ℕ
  chatbot : String
  prompt : String
  deriving DecidableEq, Repr

/-- Assignment to a string-keyed dictionary entry (later writes replace
earlier ones, insertion order preserved, as for a Python dict). -/
def setA {α : Type} (k : String) (v : α) : List (String × α) → List (String × α)
  | [] => [(k, v)]
  | (k', v') :: rest => if k' = k then (k, v) :: rest else (k', v') :: setA k v rest

/-- The mutable per-row state `run_evaluation` keeps in the row dict:
the row itself, `prompt_sent` (absent until the primary pass sets it), and
the per-chatbot `response_…`/`bot_detected_…` cells. -/
structure RowState where
  row : Row
  promptSent : Option String
  cells : List (String × QueryOut)
  deriving DecidableEq, Repr

instance : Inhabited RowState := ⟨⟨default, none, []⟩⟩

/-- Reading `row.get("bot_detected_" + cb) == "True"`: a missing cell reads
as not bot-detected. -/
def flagOf (st : RowState) (cb : String) : Bool :=
  match List.lookup cb st.cells with
  | some o => o.bot
  | none => false

/-- The inner chatbot loop of the primary pass for one row: query each
chatbot with the pre-built `fp`, recording the outcome in the row's cells.
`n` is the global query counter indexing the oracle. Returns the cells, the
emitted events and the next counter value. -/
def primaryRow (oracle : ℕ → QueryOut) (fp : String) (idx : ℕ) :
    List String → ℕ → List (String × QueryOut) → List (String × QueryOut) × List Ev × ℕ
  | [], n, acc => (acc, [], n)
  | cb :: cbs, n, acc =>
    let out := oracle n
    let pr := primaryRow oracle fp idx cbs (n + 1) (setA cb out acc)
    (pr.1, ⟨0, idx, cb, fp⟩ :: pr.2.1, pr.2.2)

/-- The primary pass: for each row build the full prompt once, store it as
`prompt_sent`, then query every chatbot in turn. -/
def primaryPass (oracle : ℕ → QueryOut) (cbs : List String) :
    List Row → ℕ → ℕ → List RowState × List Ev × ℕ
  | [], _, n => ([], [], n)
  | r :: rs, idx, n =>
    let fp := buildFullPrompt r
    let pr := primaryRow oracle fp idx cbs n []
    let ps := primaryPass oracle cbs rs (idx + 1) pr.2.2
    (⟨r, some fp, pr.1⟩ :: ps.1, pr.2.1 ++ ps.2.1, ps.2.2)

/-- The retry-needed scan at the start of a retry round: for each row (in
order) and each chatbot (in order), the entries whose `bot_detected` cell is
`"True"`. -/
def retryNeeded (cbs : List String) : List RowState → ℕ → List (ℕ × String)
  | [], _ => []
  | st :: sts, idx =>
    (cbs.filter (fun cb => flagOf st cb)).map (fun cb => (idx, cb)) ++
      retryNeeded cbs sts (idx + 1)

/-- Replace the element at position `idx` by `f` of it (a Python
mutation of `rows[idx]`). -/
def modifyIdx {α : Type} (f : α → α) : List α → ℕ → List α
  | [], _ => []
  | a :: as, 0 => f a :: as
  | a :: as, Nat.succ k => a :: modifyIdx f as k

/-- The prompt a retry uses:
`row.get("prompt_sent", row.get("synthetic_prompt", ""))`. -/
def promptFor (sts : List RowState) (idx : ℕ) : String :=
  match sts.get? idx with
  | none => ""
  | some st => st.promptSent.getD st.row.prompt

/-- One retry round: process the snapshot `need` of (row index, chatbot)
pairs, re-querying each with the stored prompt and overwriting the row's
cells with the new outcome. -/
def retryRound (oracle : ℕ → QueryOut) (round : ℕ) :
    List (ℕ × String) → List RowState → ℕ → List RowState × List Ev × ℕ
  | [], sts, n => (sts, [], n)
  | (idx, cb) :: rest, sts, n =>
    let fp := promptFor sts idx
    let out := oracle n
    let sts' := modifyIdx (fun st => { st with cells := setA cb out st.cells }) sts idx
    let rr := retryRound oracle round rest sts' (n + 1)
    (rr.1, ⟨round, idx, cb, fp⟩ :: rr.2.1, rr.2.2)

/-- The retry passes `for retry_round in range(1, max_retries + 1)`: the
first argument is the number of rounds still available, `round` the 1-based
number of the next round; stop early when no entry needs retry. -/
def retryPasses (oracle : ℕ → QueryOut) (cbs : List String) :
    ℕ → ℕ → List RowState → ℕ → List RowState × List Ev
  | 0, _, sts, _ => (sts, [])
  | Nat.succ k, round, sts, n =>
    let need := retryNeeded cbs sts 0
    if need = [] then (sts, [])
    else
      let rr := retryRound oracle round need sts n
      let rp := retryPasses oracle cbs k (round + 1) rr.1 rr.2.2
      (rp.1, rr.2.1 ++ rp.2)

/-- `run_evaluation` restricted to its scheduling behaviour: the primary
round-robin pass over `rows × cbs` followed by up to `maxRetries` retry
rounds. Returns the final row states and the full query trace. -/
def run_evaluation (oracle : ℕ → QueryOut) (rows : List Row) (cbs : List String)
    (maxRetries : ℕ) : List RowState × List Ev :=
  let pr := primaryPass oracle cbs rows 0 0
  let rp := retryPasses oracle cbs maxRetries 1 pr.1 pr.2.2
  (rp.1, pr.2.1 ++ rp.2)

/- ====================================================================
   `query_chatbot`
   ==================================================================== -/

/-- The `CHATBOT_URLS` configuration table. -/
def CHATBOT_URLS : List (String × String) :=
  [("copilot", "https://copilot.microsoft.com/"),
   ("chatgpt", "https://chatgpt.com/"),
   ("gemini", "https://gemini.google.com/app"),
   ("claude", "https://claude.ai/new")]

/-- Python's `round(x, 2)` on a latency in seconds, expressed on integer
milliseconds: round to the nearest multiple of 10 ms, ties to even
(banker's rounding). -/
def round2ms (x : ℤ) : ℤ :=
  let q := x / 10
  let r := x % 10
  let n :=
    if r < 5 then q
    else if 5 < r then q + 1
    else if q % 2 = 0 then q else q + 1
  n * 10

/-- The environment one `query_chatbot` call runs in: the outcome of each
page interaction, in program order. An `Except.error e` models that
operation raising a Python exception with message `e`. Operations whose
failures the source swallows locally (the input-selector loop, the
submit-button attempt, the bot-detection checks, the mouse-wheel fallback)
are modelled by their net result. The response wait is driven by `polls` and
`tEnd` through `wait_for_response`, which traps all its internal errors. -/
structure QueryWorld where
  newPage : Except String Unit
  applyStealth : Except String Unit
  goto : Except String Unit
  botAfterNav : Bool
  shotBotNav : Except String Unit
  shotStep1 : Except String Unit
  inputFound : Bool
  botNoInput : Bool
  shotNoInput : Except String Unit
  typeText : Except String Unit
  shotStep2 : Except String Unit
  submitViaButton : Bool
  focusEnter : Except String Unit
  botAfterSubmit : Bool
  shotBotSubmit : Except String Unit
  polls : List Poll
  tEnd : ℤ
  botAfterWait : Bool
  capture : Except String (List String)
  shotStep3 : Except String Unit
  shotErrResp : Except String Unit
  shotExcept : Except String Unit
  closePage : Except String Unit

/-- The partial values of `response_text`'s companions at the moment an
exception escapes the `try` body: `screenshot_paths`, `was_bot_detected`,
`response_time_seconds`. -/
structure TryErr where
  msg : String
  shots : List String
  bot : Bool
  rtime : ℤ
  deriving DecidableEq, Repr

/-- How the `try` body of `query_chatbot` ends: an early `return` (the page
was already closed inside the `try`), a fall-through to the code after the
`try`, or an exception escaping into the `except` handler. -/
inductive TryOut
  | early (r : String × List String × Bool × ℤ)
  | fall (r : String × List String × Bool × ℤ)
  | thrown (e : TryErr)
  deriving DecidableEq, Repr

/-- The `try` body of `query_chatbot`: navigate, bot check, find input, type,
submit, post-submit bot check, wait for the response, post-wait bot check,
capture screenshots, final debug screenshot. -/
def tryBody (_fullPrompt : String) (promptId : Option String) (w : QueryWorld) : TryOut :=
  match w.goto with
  | .error e => .thrown ⟨e, [], false, 0⟩
  | .ok _ =>
  if w.botAfterNav then
    match w.shotBotNav with
    | .error e => .thrown ⟨e, [], false, 0⟩
    | .ok _ =>
      match w.closePage with
      | .error e => .thrown ⟨e, [], true, 0⟩
      | .ok _ => .early ("ERROR: Bot detected - human verification required", [], true, 0)
  else
  match w.shotStep1 with
  | .error e => .thrown ⟨e, [], false, 0⟩
  | .ok _ =>
  if ¬ w.inputFound = true then
    if w.botNoInput then
      match w.closePage with
      | .error e => .thrown ⟨e, [], true, 0⟩
      | .ok _ => .early ("ERROR: Bot detected - human verification required", [], true, 0)
    else
      match w.shotNoInput with
      | .error e => .thrown ⟨e, [], false, 0⟩
      | .ok _ =>
        match w.closePage with
        | .error e => .thrown ⟨e, [], false, 0⟩
        | .ok _ => .early ("ERROR: Could not find input field", [], false, 0)
  else
  match w.typeText with
  | .error e => .thrown ⟨e, [], false, 0⟩
  | .ok _ =>
  match w.shotStep2 with
  | .error e => .thrown ⟨e, [], false, 0⟩
  | .ok _ =>
  match (if w.submitViaButton then Except.ok () else w.focusEnter) with
  | .error e => .thrown ⟨e, [], false, 0⟩
  | .ok _ =>
  if w.botAfterSubmit then
    match w.shotBotSubmit with
    | .error e => .thrown ⟨e, [], false, 0⟩
    | .ok _ =>
      match w.closePage with
      | .error e => .thrown ⟨e, [], true, 0⟩
      | .ok _ => .early ("ERROR: Bot detected - CAPTCHA appeared after submission", [], true, 0)
  else
  let wr := wait_for_response 120000 w.polls w.tEnd
  let rtime := round2ms wr.2
  let bot1 := w.botAfterWait
  let rtext :=
    if w.botAfterWait ∧ pyStartsWith wr.1 "ERROR" = true then
      "ERROR: Bot detected - human verification required"
    else wr.1
  if optStrTruthy promptId ∧ ¬ pyStartsWith rtext "ERROR" = true then
    match w.capture with
    | .error e => .thrown ⟨e, [], bot1, rtime⟩
    | .ok shots =>
      match w.shotStep3 with
      | .error e => .thrown ⟨e, shots, bot1, rtime⟩
      | .ok _ => .fall (rtext, shots, bot1, rtime)
  else
    match (if ¬ pyStartsWith rtext "ERROR" = true then w.shotStep3 else w.shotErrResp) with
    | .error e => .thrown ⟨e, [], bot1, rtime⟩
    | .ok _ => .fall (rtext, [], bot1, rtime)

/-- `query_chatbot`: the unknown-chatbot early return, page creation and
stealth application (before the `try`, so their exceptions propagate), the
`try` body, the `except` handler (debug screenshot, downgrade the exception
to an `ERROR: …` response text), and the final `page.close()`.
`Except.error` models an exception propagating out of `query_chatbot`. -/
def query_chatbot (chatbot : String) (fullPrompt : String) (promptId : Option String)
    (w : QueryWorld) : Except String (String × List String × Bool × ℤ) :=
  if (List.lookup chatbot CHATBOT_URLS).isNone then
    .ok ("ERROR: Unknown chatbot '" ++ chatbot ++ "'", [], false, 0)
  else
    match w.newPage with
    | .error e => .error e
    | .ok _ =>
      match w.applyStealth with
      | .error e => .error e
      | .ok _ =>
        match tryBody fullPrompt promptId w with
        | .early r => .ok r
        | .fall r =>
          match w.closePage with
          | .error e => .error e
          | .ok _ => .ok r
        | .thrown err =>
          match w.shotExcept with
          | .error e => .error e
          | .ok _ =>
            match w.closePage with
            | .error e => .error e
            | .ok _ => .ok ("ERROR: " ++ err.msg, err.shots, err.bot, err.rtime)

/- ====================================================================
   Pagination capture (`_capture_response_screenshots`)
   ==================================================================== -/

/-- The pieces of the big per-iteration `page.evaluate` result the loop
reads: whether it succeeded, the tail of the visible text
(`allVisibleTextEnd`), whether the response element's bottom is in view
(`isAtEnd`), and the container's `atEnd` flag (`none` when no container
info was returned). -/
structure VisInfo where
  success : Bool
  allEnd : String
  isAtEnd : Bool
  contAtEnd : Option Bool
  deriving DecidableEq, Repr

/-- One iteration's page interactions in the capture loop: the screenshot
(with the path it would be saved at), the visibility evaluate, the container
scroll (`none` models the JS reporting failure, `some (before, after)` the
scroll positions), and the whole-page scroll (`(current, new)` positions). -/
structure CapIter where
  path : String
  shot : Except String Unit
  vis : Except String VisInfo
  contScroll : Except String (Option (ℤ × ℤ))
  pageScroll : Except String (ℤ × ℤ)

/-- Outcome of the capture loop: finished normally (`break` or the range ran
out) with the accumulated paths, or an exception escaped to the outer
handler with the paths taken so far. -/
inductive CapOut
  | done (paths : List String)
  | failed (paths : List String)
  deriving DecidableEq, Repr

/-- Does the scroll phase of an iteration `break` out of the loop? Scroll
errors are caught locally and turn into a `break`; a no-op container scroll
breaks except on Gemini (which retries with the mouse wheel, errors
swallowed); a no-op page scroll breaks. -/
def scrollStops (it : CapIter) (isGemini hasCont : Bool) : Bool :=
  if hasCont then
    match it.contScroll with
    | .error _ => true
    | .ok none => false
    | .ok (some (b, a)) => if b = a then (if isGemini then false else true) else false
  else
    match it.pageScroll with
    | .error _ => true
    | .ok (cur, new) => new == cur

/-- The `for i in range(max_screenshots)` capture loop (the fuel starts at
the safety cap 15, `i` at 0): screenshot, read the visible text, stop on the
end-of-response checks, on a repeated fragment, or (non-Gemini) on the
final-text tail marker; otherwise scroll and continue. -/
def capLoop (w : ℕ → CapIter) (isGemini hasCont : Bool) (respText lastChunk : String) :
    ℕ → ℕ → List String → List String → CapOut
  | 0, _, _, paths => .done paths
  | Nat.succ fuel, i, prev, paths =>
    match (w i).shot with
    | .error _ => .failed paths
    | .ok _ =>
      let paths1 := paths ++ [(w i).path]
      match (w i).vis with
      | .error _ => .failed paths1
      | .ok v =>
        if v.success then
          if (if isGemini then v.contAtEnd = some true
              else (v.isAtEnd = true ∨ v.contAtEnd = some true)) then
            .done paths1
          else if v.allEnd ∈ prev ∧ 0 < i then
            .done paths1
          else
            let prev1 := prev ++ [v.allEnd]
            if ¬ isGemini = true ∧ respText ≠ "" ∧ lastChunk ≠ "" ∧
                pyIn (pyTakeRight lastChunk 20) v.allEnd = true then
              .done paths1
            else if scrollStops (w i) isGemini hasCont then
              .done paths1
            else
              capLoop w isGemini hasCont respText lastChunk fuel (i + 1) prev1 paths1
        else if scrollStops (w i) isGemini hasCont then
          .done paths1
        else
          capLoop w isGemini hasCont respText lastChunk fuel (i + 1) prev paths1

/-- The end-detection chunk computed before the loop: the last 80 characters
of the response (when longer than 50), newlines flattened, carriage returns
removed, stripped, then cut to the last 40 characters when longer. -/
def computeLastChunk (t : String) : String :=
  if t ≠ "" ∧ 50 < t.length then
    let lc := pyStrip (charRemove (charReplace (pyTakeRight t 80) '\n' ' ') '\r')
    if 40 < lc.length then pyTakeRight lc 40 else lc
  else ""

/-- The environment of one `_capture_response_screenshots` call: the
`prompt_dir.mkdir` call (before the `try`, so its exception propagates), the
pre-loop setup (viewport/container/element discovery and scroll-to-top;
`Except.error` models an exception there, `Except.ok hasCont` whether a
scrollable container was found), the per-iteration interactions, and the
full-page fallback screenshot of the outer handler. -/
structure CapWorld where
  mkdirOp : Except String Unit
  setup : Except String Bool
  iters : ℕ → CapIter
  fallbackShot : Except String String

/-- The outer `except` handler's fallback: append the single full-page
screenshot when it succeeds; its own failure is swallowed. -/
def capFallback (paths : List String) (w : CapWorld) : List String :=
  match w.fallbackShot with
  | .ok p => paths ++ [p]
  | .error _ => paths

/-- `_capture_response_screenshots`: directory creation (exceptions
propagate), then under the outer `try`: setup and the bounded capture loop;
any exception from those falls back to the single full-page screenshot. -/
def capture_response_screenshots (w : CapWorld) (chatbot : String) (respText : String) :
    Except String (List String) :=
  match w.mkdirOp with
  | .error e => .error e
  | .ok _ =>
    let isGemini := pyLower chatbot = "gemini"
    let lastChunk := computeLastChunk respText
    match w.setup with
    | .error _ => .ok (capFallback [] w)
    | .ok hasCont =>
      match capLoop w.iters isGemini hasCont respText lastChunk 15 0 [] [] with
      | .done paths => .ok paths
      | .failed paths => .ok (capFallback paths w)

/- ====================================================================
   Lemmas about the monitor step
   ==================================================================== -/

theorem botUpd_lastResponse (s : MonitorState) (p : Poll) :
    (botUpd s p).lastResponse = s.lastResponse := by
  unfold botUpd; split <;> rfl

theorem botUpd_lastResponseTime (s : MonitorState) (p : Poll) :
    (botUpd s p).lastResponseTime = s.lastResponseTime := by
  unfold botUpd; split <;> rfl

theorem botUpd_lastGrowthTime (s : MonitorState) (p : Poll) :
    (botUpd s p).lastGrowthTime = s.lastGrowthTime := by
  unfold botUpd; split <;> rfl

theorem botUpd_accurateLatency (s : MonitorState) (p : Poll) :
    (botUpd s p).accurateLatency = s.accurateLatency := by
  unfold botUpd; split <;> rfl

theorem botUpd_latencyCaptured (s : MonitorState) (p : Poll) :
    (botUpd s p).latencyCaptured = s.latencyCaptured := by
  unfold botUpd; split <;> rfl

theorem step_bot (s : MonitorState) (p : Poll)
    (h : BOT_CHECK_INTERVAL ≤ p.t - s.lastBotCheck) (hb : p.bot = true) :
    step s p = Sum.inr ("ERROR: Bot detected - human verification required", 0) := by
  unfold step
  rw [if_pos ⟨h, hb⟩]

theorem step_marker (s : MonitorState) (p : Poll)
    (h : ¬ (BOT_CHECK_INTERVAL ≤ p.t - s.lastBotCheck ∧ p.bot = true))
    (hm : hasLoadingMarker p.text = true) :
    step s p = Sum.inl { botUpd s p with lastResponse := "", lastResponseTime := p.t } := by
  unfold step
  rw [if_neg h, if_pos hm]

theorem step_short (s : MonitorState) (p : Poll)
    (h : ¬ (BOT_CHECK_INTERVAL ≤ p.t - s.lastBotCheck ∧ p.bot = true))
    (hm : hasLoadingMarker p.text = false)
    (hl : p.text.length < MIN_RESPONSE_LENGTH) :
    step s p = Sum.inl (botUpd s p) := by
  unfold step
  rw [if_neg h, if_neg (by simp [hm]), if_pos hl]

theorem step_stable_return (s : MonitorState) (p : Poll)
    (h : ¬ (BOT_CHECK_INTERVAL ≤ p.t - s.lastBotCheck ∧ p.bot = true))
    (hm : hasLoadingMarker p.text = false)
    (hl : ¬ p.text.length < MIN_RESPONSE_LENGTH)
    (he : p.text = s.lastResponse)
    (hs : STABILITY_THRESHOLD ≤ p.t - s.lastResponseTime) :
    step s p = Sum.inr (pyStrip p.text,
      if (captureUpd (botUpd s p) p).latencyCaptured then
        (captureUpd (botUpd s p) p).accurateLatency
      else p.t - STABILITY_THRESHOLD) := by
  unfold step
  rw [if_neg h, if_neg (by simp [hm]), if_neg hl,
    if_pos (by rw [botUpd_lastResponse]; exact he),
    if_pos (by rw [botUpd_lastResponseTime]; exact hs)]

theorem step_stable_continue (s : MonitorState) (p : Poll)
    (h : ¬ (BOT_CHECK_INTERVAL ≤ p.t - s.lastBotCheck ∧ p.bot = true))
    (hm : hasLoadingMarker p.text = false)
    (hl : ¬ p.text.length < MIN_RESPONSE_LENGTH)
    (he : p.text = s.lastResponse)
    (hs : ¬ STABILITY_THRESHOLD ≤ p.t - s.lastResponseTime) :
    step s p = Sum.inl (captureUpd (botUpd s p) p) := by
  unfold step
  rw [if_neg h, if_neg (by simp [hm]), if_neg hl,
    if_pos (by rw [botUpd_lastResponse]; exact he),
    if_neg (by rw [botUpd_lastResponseTime]; exact hs)]

theorem step_change (s : MonitorState) (p : Poll)
    (h : ¬ (BOT_CHECK_INTERVAL ≤ p.t - s.lastBotCheck ∧ p.bot = true))
    (hm : hasLoadingMarker p.text = false)
    (hl : ¬ p.text.length < MIN_RESPONSE_LENGTH)
    (he : p.text ≠ s.lastResponse) :
    step s p = Sum.inl { botUpd s p with lastResponse := p.text, lastResponseTime := p.t, lastGrowthTime := p.t, latencyCaptured := false } := by
  unfold step
  rw [if_neg h, if_neg (by simp [hm]), if_neg hl,
    if_neg (by rw [botUpd_lastResponse]; exact he)]

theorem captureUpd_lastResponse (s1 : MonitorState) (p : Poll) :
    (captureUpd s1 p).lastResponse = s1.lastResponse := by
  unfold captureUpd; split <;> rfl

theorem captureUpd_lastResponseTime (s1 : MonitorState) (p : Poll) :
    (captureUpd s1 p).lastResponseTime = s1.lastResponseTime := by
  unfold captureUpd; split <;> rfl

theorem captureUpd_lastGrowthTime (s1 : MonitorState) (p : Poll) :
    (captureUpd s1 p).lastGrowthTime = s1.lastGrowthTime := by
  unfold captureUpd; split <;> rfl

theorem captureUpd_lastBotCheck (s1 : MonitorState) (p : Poll) :
    (captureUpd s1 p).lastBotCheck = s1.lastBotCheck := by
  unfold captureUpd; split <;> rfl

theorem captureUpd_of_captured (s1 : MonitorState) (p : Poll)
    (h : s1.latencyCaptured = true) : captureUpd s1 p = s1 := by
  unfold captureUpd
  rw [if_neg]
  intro hc
  exact hc.1 h

theorem captureUpd_fires (s1 : MonitorState) (p : Poll)
    (h : s1.latencyCaptured = false)
    (hs : SETTLE_THRESHOLD ≤ p.t - s1.lastGrowthTime)
    (hl : MIN_RESPONSE_LENGTH ≤ p.text.length) :
    captureUpd s1 p = { s1 with accurateLatency := s1.lastGrowthTime, latencyCaptured := true } := by
  unfold captureUpd
  rw [if_pos ⟨by simp [h], hs, hl⟩]

theorem captureUpd_latency_inv (s1 : MonitorState) (p : Poll) (g : ℤ)
    (h1 : s1.lastGrowthTime = g)
    (h2 : s1.latencyCaptured = true → s1.accurateLatency = g) :
    (captureUpd s1 p).latencyCaptured = true → (captureUpd s1 p).accurateLatency = g := by
  unfold captureUpd
  split
  · intro _; exact h1
  · exact h2

theorem runPolls_cons_continue (timeout : ℤ) (s : MonitorState) (p : Poll) (ps : List Poll)
    (s' : MonitorState) (hg : p.t < timeout) (hs : step s p = Sum.inl s') :
    runPolls timeout s (p :: ps) = runPolls timeout s' ps := by
  conv_lhs => unfold runPolls
  rw [if_pos hg, hs]

theorem runPolls_cons_return (timeout : ℤ) (s : MonitorState) (p : Poll) (ps : List Poll)
    (r : String × ℤ) (hg : p.t < timeout) (hs : step s p = Sum.inr r) :
    runPolls timeout s (p :: ps) = Sum.inr r := by
  unfold runPolls
  rw [if_pos hg, hs]

theorem runPolls_cons_guard (timeout : ℤ) (s : MonitorState) (p : Poll) (ps : List Poll)
    (hg : ¬ p.t < timeout) :
    runPolls timeout s (p :: ps) = Sum.inl (s, some p.t) := by
  unfold runPolls
  rw [if_neg hg]

theorem runSteps_append (timeout : ℤ) :
    ∀ (xs : List Poll) (s s' : MonitorState), runSteps timeout s xs = some s' →
      ∀ ys : List Poll, runPolls timeout s (xs ++ ys) = runPolls timeout s' ys := by
  intro xs
  induction xs with
  | nil =>
    intro s s' h ys
    unfold runSteps at h
    cases h
    rfl
  | cons p ps ih =>
    intro s s' h ys
    unfold runSteps at h
    by_cases hg : p.t < timeout
    · rw [if_pos hg] at h
      cases hstep : step s p with
      | inr r => rw [hstep] at h; cases h
      | inl s1 =>
        rw [hstep] at h
        rw [List.cons_append, runPolls_cons_continue timeout s p (ps ++ ys) s1 hg hstep]
        exact ih s1 s' h ys
    · rw [if_neg hg] at h
      cases h

/-- The reachable-state invariant behind the timeout branch: the tracked
response is either still empty or at least `MIN_RESPONSE_LENGTH` long
(shorter extracted texts are never stored). -/
def lenInv (s : MonitorState) : Prop :=
  s.lastResponse = "" ∨ MIN_RESPONSE_LENGTH ≤ s.lastResponse.length

theorem step_lenInv (s : MonitorState) (p : Poll) (s' : MonitorState)
    (hi : lenInv s) (he : step s p = Sum.inl s') : lenInv s' := by
  by_cases h1 : BOT_CHECK_INTERVAL ≤ p.t - s.lastBotCheck ∧ p.bot = true
  · rw [step_bot s p h1.1 h1.2] at he; cases he
  by_cases h2 : hasLoadingMarker p.text = true
  · rw [step_marker s p h1 h2] at he
    cases he
    left; rfl
  rw [Bool.not_eq_true] at h2
  by_cases h3 : p.text.length < MIN_RESPONSE_LENGTH
  · rw [step_short s p h1 h2 h3] at he
    cases he
    unfold lenInv
    rw [botUpd_lastResponse]
    exact hi
  by_cases h4 : p.text = s.lastResponse
  · by_cases h5 : STABILITY_THRESHOLD ≤ p.t - s.lastResponseTime
    · rw [step_stable_return s p h1 h2 h3 h4 h5] at he; cases he
    · rw [step_stable_continue s p h1 h2 h3 h4 h5] at he
      cases he
      unfold lenInv
      rw [captureUpd_lastResponse, botUpd_lastResponse]
      exact hi
  · rw [step_change s p h1 h2 h3 h4] at he
    cases he
    right
    exact Nat.not_lt.mp h3

theorem runPolls_lenInv (timeout : ℤ) :
    ∀ (polls : List Poll) (s s' : MonitorState) (te : Option ℤ), lenInv s →
      runPolls timeout s polls = Sum.inl (s', te) → lenInv s' := by
  intro polls
  induction polls with
  | nil =>
    intro s s' te hi h
    unfold runPolls at h
    cases h
    exact hi
  | cons p ps ih =>
    intro s s' te hi h
    by_cases hg : p.t < timeout
    · cases hstep : step s p with
      | inr r => rw [runPolls_cons_return timeout s p ps r hg hstep] at h; cases h
      | inl s1 =>
        rw [runPolls_cons_continue timeout s p ps s1 hg hstep] at h
        exact ih s1 s' te (step_lenInv s p s1 hi hstep) h
    · rw [runPolls_cons_guard timeout s p ps hg] at h
      cases h
      exact hi

/-- A poll on which the wait loop runs an undisturbed iteration: guard
holds, no bot detection, no still-generating marker in the text. -/
def basicPoll (timeout : ℤ) (p : Poll) : Bool :=
  decide (p.t < timeout) && !p.bot && !hasLoadingMarker p.text

/-- A non-decreasing growth phase, tracked the way the monitor tracks it:
`cur` is the text currently tracked and `tc` the time of the last change.
A poll below the minimum length is skipped; a poll repeating the tracked
text is a transient mid-generation pause, admitted only while shorter than
the stability threshold (a longer pause makes the monitor return early with
the intermediate text, so the claim itself fails there); a poll with any
other text is a growth step. Returns the tracked pair after the phase, or
`none` when the phase is not of this shape. -/
def growthTrack (timeout : ℤ) : String → ℤ → List Poll → Option (String × ℤ)
  | cur, tc, [] => some (cur, tc)
  | cur, tc, p :: ps =>
    if basicPoll timeout p = true then
      if p.text.length < MIN_RESPONSE_LENGTH then growthTrack timeout cur tc ps
      else if p.text = cur then
        if p.t - tc < STABILITY_THRESHOLD then growthTrack timeout cur tc ps else none
      else growthTrack timeout p.text p.t ps
    else none

/-- A stable phase after a last growth at time `g` with final text `F`: good
guard/bot polls showing exactly `F`, up to and including the first poll at
least the stability threshold after `g` (later polls are unconstrained, the
monitor returns there). -/
def stableRun (timeout g : ℤ) (F : String) : List Poll → Bool
  | [] => false
  | p :: ps => decide (p.t < timeout) && !p.bot && p.text == F &&
      (decide (STABILITY_THRESHOLD ≤ p.t - g) || stableRun timeout g F ps)

/-- The final constant phase of a non-decreasing-then-constant poll
sequence: its head is the last growth — a poll showing the final text `F`
(long enough) at time `g` — and the tail shows `F` unchanged until the
first poll at least the stability threshold after `g`. -/
def finalRun (timeout g : ℤ) (F : String) : List Poll → Bool
  | [] => false
  | p :: ps => basicPoll timeout p && p.text == F &&
      decide (MIN_RESPONSE_LENGTH ≤ p.text.length) && decide (p.t = g) &&
      stableRun timeout g F ps

theorem runSteps_cons_continue (timeout : ℤ) (s : MonitorState) (p : Poll) (ps : List Poll)
    (s1 : MonitorState) (hg : p.t < timeout) (hs : step s p = Sum.inl s1) :
    runSteps timeout s (p :: ps) = runSteps timeout s1 ps := by
  conv_lhs => unfold runSteps
  rw [if_pos hg, hs]

theorem growthTrack_processes (timeout : ℤ) :
    ∀ (gps : List Poll) (s : MonitorState) (res : String × ℤ),
      growthTrack timeout s.lastResponse s.lastResponseTime gps = some res →
      s.lastGrowthTime = s.lastResponseTime →
      ∃ s', runSteps timeout s gps = some s' ∧
        s'.lastResponse = res.1 ∧ s'.lastResponseTime = res.2 ∧ s'.lastGrowthTime = res.2 := by
  intro gps
  induction gps with
  | nil =>
    intro s res h hgw
    unfold growthTrack at h
    cases h
    exact ⟨s, rfl, rfl, rfl, hgw⟩
  | cons p ps ih =>
    intro s res h hgw
    unfold growthTrack at h
    by_cases hb : basicPoll timeout p = true
    · rw [if_pos hb] at h
      unfold basicPoll at hb
      simp only [Bool.and_eq_true, Bool.not_eq_true', decide_eq_true_eq] at hb
      obtain ⟨⟨hguard, hbot⟩, hmark⟩ := hb
      by_cases hshort : p.text.length < MIN_RESPONSE_LENGTH
      · rw [if_pos hshort] at h
        have hstep := step_short s p (by simp [hbot]) hmark hshort
        obtain ⟨s', hrun, h1, h2, h3⟩ := ih (botUpd s p) res
          (by rw [botUpd_lastResponse, botUpd_lastResponseTime]; exact h)
          (by rw [botUpd_lastGrowthTime, botUpd_lastResponseTime]; exact hgw)
        exact ⟨s', by rw [runSteps_cons_continue timeout s p ps _ hguard hstep]; exact hrun,
          h1, h2, h3⟩
      · rw [if_neg hshort] at h
        by_cases heq : p.text = s.lastResponse
        · rw [if_pos heq] at h
          by_cases hstab : p.t - s.lastResponseTime < STABILITY_THRESHOLD
          · rw [if_pos hstab] at h
            have hstep := step_stable_continue s p (by simp [hbot]) hmark hshort heq
              (by omega)
            obtain ⟨s', hrun, h1, h2, h3⟩ := ih (captureUpd (botUpd s p) p) res
              (by rw [captureUpd_lastResponse, botUpd_lastResponse,
                    captureUpd_lastResponseTime, botUpd_lastResponseTime]
                  exact h)
              (by rw [captureUpd_lastGrowthTime, botUpd_lastGrowthTime,
                    captureUpd_lastResponseTime, botUpd_lastResponseTime, hgw])
            exact ⟨s', by rw [runSteps_cons_continue timeout s p ps _ hguard hstep]; exact hrun,
              h1, h2, h3⟩
          · rw [if_neg hstab] at h
            cases h
        · rw [if_neg heq] at h
          have hstep := step_change s p (by simp [hbot]) hmark hshort heq
          obtain ⟨s', hrun, h1, h2, h3⟩ := ih
            { botUpd s p with lastResponse := p.text, lastResponseTime := p.t, lastGrowthTime := p.t, latencyCaptured := false }
            res h rfl
          exact ⟨s', by rw [runSteps_cons_continue timeout s p ps _ hguard hstep]; exact hrun,
            h1, h2, h3⟩
    · rw [if_neg hb] at h
      cases h

theorem stable_processes (timeout g : ℤ) (F : String)
    (hmF : hasLoadingMarker F = false) (hlF : MIN_RESPONSE_LENGTH ≤ F.length) :
    ∀ (polls : List Poll) (s : MonitorState),
      s.lastResponse = F → s.lastResponseTime = g → s.lastGrowthTime = g →
      (s.latencyCaptured = true → s.accurateLatency = g) →
      stableRun timeout g F polls = true →
      runPolls timeout s polls = Sum.inr (pyStrip F, g) := by
  intro polls
  induction polls with
  | nil => intro s _ _ _ _ h; cases h
  | cons p ps ih =>
    intro s hr ht hg hl h
    unfold stableRun at h
    simp only [Bool.and_eq_true, Bool.not_eq_true', decide_eq_true_eq, beq_iff_eq] at h
    obtain ⟨⟨⟨hguard, hbot⟩, htext⟩, hdone⟩ := h
    have h1 : ¬ (BOT_CHECK_INTERVAL ≤ p.t - s.lastBotCheck ∧ p.bot = true) := by simp [hbot]
    have hm : hasLoadingMarker p.text = false := by rw [htext]; exact hmF
    have hl3 : ¬ p.text.length < MIN_RESPONSE_LENGTH := by
      rw [htext]; exact Nat.not_lt.mpr hlF
    have he : p.text = s.lastResponse := by rw [htext, hr]
    by_cases hstab : STABILITY_THRESHOLD ≤ p.t - g
    · have hs : STABILITY_THRESHOLD ≤ p.t - s.lastResponseTime := by rw [ht]; exact hstab
      have hstep := step_stable_return s p h1 hm hl3 he hs
      have hcap : (captureUpd (botUpd s p) p).latencyCaptured = true ∧
          (captureUpd (botUpd s p) p).accurateLatency = g := by
        cases hb : s.latencyCaptured with
        | true =>
          rw [captureUpd_of_captured (botUpd s p) p (by rw [botUpd_latencyCaptured]; exact hb)]
          exact ⟨by rw [botUpd_latencyCaptured]; exact hb,
            by rw [botUpd_accurateLatency]; exact hl hb⟩
        | false =>
          rw [captureUpd_fires (botUpd s p) p (by rw [botUpd_latencyCaptured]; exact hb)
            (by rw [botUpd_lastGrowthTime, hg]
                unfold SETTLE_THRESHOLD
                unfold STABILITY_THRESHOLD at hstab
                omega)
            (by rw [htext]; exact hlF)]
          refine ⟨rfl, ?_⟩
          show (botUpd s p).lastGrowthTime = g
          rw [botUpd_lastGrowthTime]; exact hg
      rw [runPolls_cons_return timeout s p ps _ hguard hstep, htext]
      rw [if_pos (by rw [hcap.1]), hcap.2]
    · have hrest : stableRun timeout g F ps = true := by
        rcases Bool.or_eq_true_iff.mp hdone with hc | hc
        · exact absurd (of_decide_eq_true hc) hstab
        · exact hc
      have hs : ¬ STABILITY_THRESHOLD ≤ p.t - s.lastResponseTime := by rw [ht]; exact hstab
      have hstep := step_stable_continue s p h1 hm hl3 he hs
      rw [runPolls_cons_continue timeout s p ps _ hguard hstep]
      refine ih (captureUpd (botUpd s p) p) ?_ ?_ ?_ ?_ hrest
      · rw [captureUpd_lastResponse, botUpd_lastResponse]; exact hr
      · rw [captureUpd_lastResponseTime, botUpd_lastResponseTime]; exact ht
      · rw [captureUpd_lastGrowthTime, botUpd_lastGrowthTime]; exact hg
      · exact captureUpd_latency_inv (botUpd s p) p g
          (by rw [botUpd_lastGrowthTime]; exact hg)
          (fun hb => by
            rw [botUpd_accurateLatency]
            exact hl (by rw [← botUpd_latencyCaptured s p]; exact hb))

/- ====================================================================
   Claims C1 - C4: the completion monitor
   ==================================================================== -/

/-- Claim C1, counterexample: a poll sequence whose text grows once at
t = 1000 ms and then stays constant long past the stability threshold makes
`_wait_for_response` return the final text with latency 1000 ms — the
last-growth timestamp itself, not the last-growth timestamp plus the settle
threshold (1000 + 500) as the claim states. -/
theorem C1_counterexample :
    wait_for_response 120000
      [⟨1000, "abcdefghijklmnopqrstuvwxyz0123", false⟩,
       ⟨9000, "abcdefghijklmnopqrstuvwxyz0123", false⟩] 0
      = ("abcdefghijklmnopqrstuvwxyz0123", 1000) ∧
    (1000 : ℤ) ≠ 1000 + SETTLE_THRESHOLD := by decide

/-- Claim C1 (amended): for every poll sequence whose extracted text is
non-decreasing and then constant for at least the stability-threshold
duration, the monitor returns COMPLETE with the stripped final text, and
the returned latency equals the last-growth timestamp measured from the
start of monitoring — without the settle threshold added. The growth phase
`gps` is arbitrary non-decreasing tracking (`growthTrack`): polls below the
minimum length are skipped, mid-growth pauses are admitted as long as each
stays below the stability threshold (a pause reaching it makes the monitor
return the intermediate text, so the claim itself fails there), and only
bot-flagged, guard-expired or still-generating-marker frames are excluded
(on those the claim is false as well: the marker branch resets the tracked
text and its timestamps). `finalRun` is the constant phase: the last growth
to `F` at time `g`, then `F` unchanged up to the first poll at least the
stability threshold after `g`. -/
theorem C1_amended_complete_latency (timeout tEnd g tc : ℤ) (gps sps : List Poll)
    (F cur : String)
    (hg : growthTrack timeout "" 0 gps = some (cur, tc))
    (hne : F ≠ cur)
    (hs : finalRun timeout g F sps = true) :
    wait_for_response timeout (gps ++ sps) tEnd = (pyStrip F, g) := by
  obtain ⟨s', hrun, hr, ht, hgw⟩ := growthTrack_processes timeout gps initState (cur, tc) hg rfl
  cases sps with
  | nil => cases hs
  | cons p ps =>
    unfold finalRun at hs
    simp only [Bool.and_eq_true, beq_iff_eq, decide_eq_true_eq] at hs
    obtain ⟨⟨⟨⟨hbasic, hpF⟩, hplen⟩, hpt⟩, hstab⟩ := hs
    unfold basicPoll at hbasic
    simp only [Bool.and_eq_true, Bool.not_eq_true', decide_eq_true_eq] at hbasic
    obtain ⟨⟨hguard, hbot⟩, hmark⟩ := hbasic
    have hstep := step_change s' p (by simp [hbot]) hmark
      (Nat.not_lt.mpr (by rw [hpF] at hplen ⊢; exact hplen))
      (by rw [hpF, hr]; exact hne)
    unfold wait_for_response
    rw [runSteps_append timeout gps initState s' hrun (p :: ps)]
    rw [runPolls_cons_continue timeout s' p ps _ hguard hstep]
    rw [stable_processes timeout g F (by rw [hpF] at hmark; exact hmark)
      (by rw [hpF] at hplen; exact hplen) ps
      { botUpd s' p with lastResponse := p.text, lastResponseTime := p.t, lastGrowthTime := p.t, latencyCaptured := false }
      hpF hpt hpt (fun hx => absurd hx (by exact Bool.false_ne_true)) hstab]

/-- Witness for the amended C1, at a sequence with short initial frames, a
mid-growth pause and a final constant run: text grows through 30- and
35-character stages (with a 200 ms pause on the first), reaches the final
41-character text at 1200 ms, and stays constant past the stability
threshold; the monitor completes with that text and latency 1200 ms. -/
theorem C1_amended_witness :
    wait_for_response 120000
      [⟨200, "", false⟩,
       ⟨400, "Hel", false⟩,
       ⟨600, "abcdefghijklmnopqrstuvwxyz0123", false⟩,
       ⟨800, "abcdefghijklmnopqrstuvwxyz0123", false⟩,
       ⟨1000, "abcdefghijklmnopqrstuvwxyz0123 plus", false⟩,
       ⟨1200, "abcdefghijklmnopqrstuvwxyz0123 plus more!", false⟩,
       ⟨9500, "abcdefghijklmnopqrstuvwxyz0123 plus more!", false⟩] 0
      = ("abcdefghijklmnopqrstuvwxyz0123 plus more!", 1200) :=
  C1_amended_complete_latency 120000 0 1200 1000
    [⟨200, "", false⟩,
     ⟨400, "Hel", false⟩,
     ⟨600, "abcdefghijklmnopqrstuvwxyz0123", false⟩,
     ⟨800, "abcdefghijklmnopqrstuvwxyz0123", false⟩,
     ⟨1000, "abcdefghijklmnopqrstuvwxyz0123 plus", false⟩]
    [⟨1200, "abcdefghijklmnopqrstuvwxyz0123 plus more!", false⟩,
     ⟨9500, "abcdefghijklmnopqrstuvwxyz0123 plus more!", false⟩]
    "abcdefghijklmnopqrstuvwxyz0123 plus more!"
    "abcdefghijklmnopqrstuvwxyz0123 plus"
    (by decide) (by decide) (by decide)

/-- Claim C2: when the overall timeout guard fails, `_wait_for_response`
returns the stripped tracked text (with the captured latency, or the exit
time when none was captured) whenever any text at all was captured, and
returns the timeout error exactly when no text was captured. (A non-empty
tracked text is automatically at least `MIN_RESPONSE_LENGTH` long, by the
`lenInv` invariant, so the length test of the partial branch never blocks a
captured text.) -/
theorem C2_timeout_partial_or_timedout (timeout tv tEnd : ℤ) (polls : List Poll)
    (s : MonitorState)
    (h : runPolls timeout initState polls = Sum.inl (s, some tv)) :
    (s.lastResponse ≠ "" →
      wait_for_response timeout polls tEnd
        = (pyStrip s.lastResponse, if s.latencyCaptured then s.accurateLatency else tv)) ∧
    (s.lastResponse = "" →
      wait_for_response timeout polls tEnd = ("ERROR: Timeout waiting for response", 0)) := by
  have hinv : lenInv s := runPolls_lenInv timeout polls initState s (some tv) (Or.inl rfl) h
  constructor
  · intro hne
    have hlen : MIN_RESPONSE_LENGTH ≤ s.lastResponse.length := by
      rcases hinv with h0 | h0
      · exact absurd h0 hne
      · exact h0
    unfold wait_for_response
    rw [h]
    show timeoutResult s ((some tv).getD tEnd) = _
    unfold timeoutResult
    rw [if_pos ⟨hne, hlen⟩]
    rfl
  · intro he
    unfold wait_for_response
    rw [h]
    show timeoutResult s ((some tv).getD tEnd) = _
    unfold timeoutResult
    rw [if_neg (fun hc => hc.1 he)]

/-- Witness for C2: a first poll past the timeout with nothing captured
yields the timeout error. -/
theorem C2_witness :
    wait_for_response 120000 [⟨130000, "x", false⟩] 0
      = ("ERROR: Timeout waiting for response", 0) :=
  (C2_timeout_partial_or_timedout 120000 130000 0 [⟨130000, "x", false⟩] initState
    (by decide)).2 rfl

/-- Claim C3, counterexample: a poll whose extracted text differs from the
tracked text but is shorter than `MIN_RESPONSE_LENGTH` leaves the monitor
state completely unchanged — no new growth timestamp is recorded and the
tracked text is not updated, contradicting the claim's "on every poll where
the extracted text differs by content". -/
theorem C3_counterexample :
    step ⟨"0123456789012345678901234567890123456789", 1000, 1000, 0, false, 0⟩
        ⟨2000, "short text", false⟩
      = Sum.inl ⟨"0123456789012345678901234567890123456789", 1000, 1000, 0, false, 0⟩ ∧
    "short text" ≠ "0123456789012345678901234567890123456789" := by decide

/-- Claim C3 (amended): on every poll whose extracted text passes the
still-generating-marker filter and the minimum-length threshold and differs
from the tracked text by content — including when it is shorter than the
tracked text — the monitor records the poll time as the new growth
timestamp, updates the tracked text, clears the latency-captured flag, and
continues polling (a content change is never treated as an error); text
failing those filters leaves the growth state untouched. -/
theorem C3_amended_change_updates (s : MonitorState) (p : Poll)
    (hb : p.bot = false)
    (hm : hasLoadingMarker p.text = false)
    (hl : MIN_RESPONSE_LENGTH ≤ p.text.length)
    (hne : p.text ≠ s.lastResponse) :
    step s p = Sum.inl { botUpd s p with lastResponse := p.text, lastResponseTime := p.t, lastGrowthTime := p.t, latencyCaptured := false } :=
  step_change s p (by simp [hb]) hm (Nat.not_lt.mpr hl) hne

/-- Witness for the amended C3: a shrink from a 40-character tracked text to
a different 30-character text still counts as growth. -/
theorem C3_amended_witness :
    step ⟨"0123456789012345678901234567890123456789", 1000, 1000, 0, false, 0⟩
        ⟨2000, "abcdefghijklmnopqrstuvwxyz0123", false⟩
      = Sum.inl ⟨"abcdefghijklmnopqrstuvwxyz0123", 2000, 2000, 0, false, 0⟩ :=
  C3_amended_change_updates
    ⟨"0123456789012345678901234567890123456789", 1000, 1000, 0, false, 0⟩
    ⟨2000, "abcdefghijklmnopqrstuvwxyz0123", false⟩
    rfl (by decide) (by decide) (by decide)

/-- Claim C4, counterexample: on the first unchanged poll past the settle
threshold (at t = 1600 ms, 600 ms after the last growth at 1000 ms) the
monitor stores 1000 — the last-growth timestamp — as the latency, not the
elapsed-time-since-growth 600 that the claim says is captured. -/
theorem C4_counterexample :
    step ⟨"abcdefghijklmnopqrstuvwxyz0123", 1000, 1000, 0, false, 0⟩
        ⟨1600, "abcdefghijklmnopqrstuvwxyz0123", false⟩
      = Sum.inl ⟨"abcdefghijklmnopqrstuvwxyz0123", 1000, 1000, 1000, true, 0⟩ ∧
    (1600 - 1000 : ℤ) ≠ 1000 := by decide

/-- Claim C4 (amended): while the text stays unchanged (and the poll is not
yet at the stability threshold), once the time since the last growth first
reaches the settle threshold the monitor captures the last-growth timestamp
as the latency value exactly once (first conjunct); a later unchanged poll
with the flag already set changes nothing — the captured latency is never
overwritten (second conjunct); and the capture flag re-arms only on a later
growth, which clears it (third conjunct). -/
theorem C4_amended_capture_once (s : MonitorState) (p : Poll)
    (hb : p.bot = false)
    (hm : hasLoadingMarker p.text = false)
    (hl : MIN_RESPONSE_LENGTH ≤ p.text.length) :
    (p.text = s.lastResponse → ¬ STABILITY_THRESHOLD ≤ p.t - s.lastResponseTime →
      s.latencyCaptured = false → SETTLE_THRESHOLD ≤ p.t - s.lastGrowthTime →
      step s p = Sum.inl { botUpd s p with accurateLatency := s.lastGrowthTime, latencyCaptured := true }) ∧
    (p.text = s.lastResponse → ¬ STABILITY_THRESHOLD ≤ p.t - s.lastResponseTime →
      s.latencyCaptured = true →
      step s p = Sum.inl (botUpd s p)) ∧
    (p.text ≠ s.lastResponse →
      step s p = Sum.inl { botUpd s p with lastResponse := p.text, lastResponseTime := p.t, lastGrowthTime := p.t, latencyCaptured := false }) := by
  refine ⟨?_, ?_, ?_⟩
  · intro he hstab hc hsettle
    rw [step_stable_continue s p (by simp [hb]) hm (Nat.not_lt.mpr hl) he hstab]
    rw [captureUpd_fires (botUpd s p) p (by rw [botUpd_latencyCaptured]; exact hc)
      (by rw [botUpd_lastGrowthTime]; exact hsettle) hl]
    simp only [botUpd_lastGrowthTime]
  · intro he hstab hc
    rw [step_stable_continue s p (by simp [hb]) hm (Nat.not_lt.mpr hl) he hstab]
    rw [captureUpd_of_captured (botUpd s p) p (by rw [botUpd_latencyCaptured]; exact hc)]
  · intro hne
    exact step_change s p (by simp [hb]) hm (Nat.not_lt.mpr hl) hne

/-- Witness for the amended C4: the capture at 600 ms past the last growth
stores the last-growth timestamp 1000 and sets the flag. -/
theorem C4_amended_witness :
    step ⟨"abcdefghijklmnopqrstuvwxyz0123", 1000, 1000, 0, false, 0⟩
        ⟨1600, "abcdefghijklmnopqrstuvwxyz0123", false⟩
      = Sum.inl ⟨"abcdefghijklmnopqrstuvwxyz0123", 1000, 1000, 1000, true, 0⟩ :=
  (C4_amended_capture_once
    ⟨"abcdefghijklmnopqrstuvwxyz0123", 1000, 1000, 0, false, 0⟩
    ⟨1600, "abcdefghijklmnopqrstuvwxyz0123", false⟩
    rfl (by decide) (by decide)).1 rfl (by decide) rfl (by decide)

/- ====================================================================
   Lemmas about the scheduler
   ==================================================================== -/

theorem modifyIdx_length {α : Type} (f : α → α) :
    ∀ (l : List α) (idx : ℕ), (modifyIdx f l idx).length = l.length := by
  intro l
  induction l with
  | nil => intro idx; rfl
  | cons a as ih =>
    intro idx
    cases idx with
    | zero => rfl
    | succ k => simpa [modifyIdx] using ih k

theorem modifyIdx_get? {α : Type} (f : α → α) :
    ∀ (l : List α) (idx j : ℕ),
      (modifyIdx f l idx).get? j = if j = idx then (l.get? j).map f else l.get? j := by
  intro l
  induction l with
  | nil => intro idx j; simp [modifyIdx]
  | cons a as ih =>
    intro idx j
    cases idx with
    | zero =>
      cases j with
      | zero => simp [modifyIdx]
      | succ j' => simp [modifyIdx]
    | succ k =>
      cases j with
      | zero => simp [modifyIdx]
      | succ j' => simpa [modifyIdx] using ih k j'

theorem lookup_setA {α : Type} (k k' : String) (v : α) :
    ∀ l : List (String × α),
      List.lookup k (setA k' v l) = if k = k' then some v else List.lookup k l := by
  intro l
  induction l with
  | nil =>
    by_cases h : k = k'
    · simp [setA, List.lookup, h]
    · simp [setA, List.lookup, h, beq_eq_false_iff_ne.mpr h]
  | cons p rest ih =>
    obtain ⟨a, b⟩ := p
    by_cases h : a = k'
    · subst h
      by_cases h2 : k = a
      · simp [setA, List.lookup, h2]
      · simp [setA, List.lookup, h2, beq_eq_false_iff_ne.mpr h2]
    · by_cases h2 : k = a
      · have h3 : ¬ k = k' := by rw [h2]; exact h
        simp [setA, List.lookup, h, h2, h3]
      · simp [setA, List.lookup, h, beq_eq_false_iff_ne.mpr h2, ih]

theorem flagOf_set_other (st : RowState) (cb cb' : String) (out : QueryOut)
    (h : cb ≠ cb') :
    flagOf { st with cells := setA cb' out st.cells } cb = flagOf st cb := by
  unfold flagOf
  rw [lookup_setA cb cb' out st.cells, if_neg h]

/-- Alignment of row states with the input rows: every state holds its row
and the full prompt built from it, stored during the primary pass. -/
def rowsAligned (rows : List Row) (sts : List RowState) : Prop :=
  ∀ j st, sts.get? j = some st →
    ∃ r, rows.get? j = some r ∧ st.row = r ∧ st.promptSent = some (buildFullPrompt r)

theorem primaryRow_events (oracle : ℕ → QueryOut) (fp : String) (idx : ℕ) :
    ∀ (cbs : List String) (n : ℕ) (acc : List (String × QueryOut)),
      ∀ e ∈ (primaryRow oracle fp idx cbs n acc).2.1,
        e.round = 0 ∧ e.rowIdx = idx ∧ e.prompt = fp ∧ e.chatbot ∈ cbs := by
  intro cbs
  induction cbs with
  | nil => intro n acc e he; cases he
  | cons cb rest ih =>
    intro n acc e he
    simp only [primaryRow, List.mem_cons] at he
    rcases he with rfl | he
    · exact ⟨rfl, rfl, rfl, List.mem_cons_self cb rest⟩
    · obtain ⟨h1, h2, h3, h4⟩ := ih (n + 1) (setA cb (oracle n) acc) e he
      exact ⟨h1, h2, h3, List.mem_cons_of_mem cb h4⟩

theorem primaryPass_events (oracle : ℕ → QueryOut) (cbs : List String) :
    ∀ (rows : List Row) (idx n : ℕ),
      ∀ e ∈ (primaryPass oracle cbs rows idx n).2.1,
        e.round = 0 ∧ ∃ j r, rows.get? j = some r ∧ e.rowIdx = idx + j ∧
          e.prompt = buildFullPrompt r ∧ e.chatbot ∈ cbs := by
  intro rows
  induction rows with
  | nil => intro idx n e he; cases he
  | cons r rs ih =>
    intro idx n e he
    simp only [primaryPass, List.mem_append] at he
    rcases he with he | he
    · obtain ⟨h1, h2, h3, h4⟩ := primaryRow_events oracle (buildFullPrompt r) idx cbs n [] e he
      exact ⟨h1, 0, r, by simp, by omega, h3, h4⟩
    · obtain ⟨h1, j, r', hj, hidx, hp, hcb⟩ := ih (idx + 1)
        (primaryRow oracle (buildFullPrompt r) idx cbs n []).2.2 e he
      exact ⟨h1, j + 1, r', by simpa using hj, by omega, hp, hcb⟩

theorem primaryPass_aligned (oracle : ℕ → QueryOut) (cbs : List String) :
    ∀ (rows : List Row) (idx n : ℕ), rowsAligned rows (primaryPass oracle cbs rows idx n).1 := by
  intro rows
  induction rows with
  | nil => intro idx n j st h; cases h
  | cons r rs ih =>
    intro idx n j st h
    cases j with
    | zero =>
      simp only [primaryPass, List.get?_cons_zero] at h
      cases h
      exact ⟨r, by simp, rfl, rfl⟩
    | succ j' =>
      simp only [primaryPass, List.get?_cons_succ] at h
      obtain ⟨r', h1, h2, h3⟩ := ih (idx + 1)
        (primaryRow oracle (buildFullPrompt r) idx cbs n []).2.2 j' st h
      exact ⟨r', by simpa using h1, h2, h3⟩

theorem primaryPass_length (oracle : ℕ → QueryOut) (cbs : List String) :
    ∀ (rows : List Row) (idx n : ℕ),
      (primaryPass oracle cbs rows idx n).1.length = rows.length := by
  intro rows
  induction rows with
  | nil => intro idx n; rfl
  | cons r rs ih =>
    intro idx n
    simpa [primaryPass] using ih (idx + 1) (primaryRow oracle (buildFullPrompt r) idx cbs n []).2.2

theorem retryNeeded_mem (cbs : List String) :
    ∀ (sts : List RowState) (idx0 i : ℕ) (cb : String),
      (i, cb) ∈ retryNeeded cbs sts idx0 ↔
        ∃ j st, i = idx0 + j ∧ sts.get? j = some st ∧ cb ∈ cbs ∧ flagOf st cb = true := by
  intro sts
  induction sts with
  | nil =>
    intro idx0 i cb
    simp [retryNeeded]
  | cons st sts' ih =>
    intro idx0 i cb
    simp only [retryNeeded, List.mem_append, List.mem_map, List.mem_filter, ih (idx0 + 1)]
    constructor
    · rintro (⟨c, ⟨hc, hf⟩, he⟩ | ⟨j, st', he, hg, hc, hf⟩)
      · cases he
        exact ⟨0, st, by omega, rfl, hc, hf⟩
      · exact ⟨j + 1, st', by omega, by simpa using hg, hc, hf⟩
    · rintro ⟨j, st', he, hg, hc, hf⟩
      cases j with
      | zero =>
        left
        simp only [List.get?_cons_zero] at hg
        cases hg
        exact ⟨cb, ⟨hc, hf⟩, by simp; omega⟩
      | succ j' =>
        right
        simp only [List.get?_cons_succ] at hg
        exact ⟨j', st', by omega, hg, hc, hf⟩

theorem retryRound_trace (oracle : ℕ → QueryOut) (round : ℕ) :
    ∀ (need : List (ℕ × String)) (sts : List RowState) (n : ℕ),
      (retryRound oracle round need sts n).2.1.map (fun e => (e.rowIdx, e.chatbot)) = need := by
  intro need
  induction need with
  | nil => intro sts n; rfl
  | cons x rest ih =>
    intro sts n
    obtain ⟨idx, cb⟩ := x
    simpa [retryRound] using
      ih (modifyIdx (fun st => { st with cells := setA cb (oracle n) st.cells }) sts idx) (n + 1)

theorem retryRound_round (oracle : ℕ → QueryOut) (round : ℕ) :
    ∀ (need : List (ℕ × String)) (sts : List RowState) (n : ℕ),
      ∀ e ∈ (retryRound oracle round need sts n).2.1, e.round = round := by
  intro need
  induction need with
  | nil => intro sts n e he; cases he
  | cons x rest ih =>
    intro sts n e he
    obtain ⟨idx, cb⟩ := x
    simp only [retryRound, List.mem_cons] at he
    rcases he with rfl | he
    · rfl
    · exact ih _ (n + 1) e he

theorem retryRound_length (oracle : ℕ → QueryOut) (round : ℕ) :
    ∀ (need : List (ℕ × String)) (sts : List RowState) (n : ℕ),
      (retryRound oracle round need sts n).1.length = sts.length := by
  intro need
  induction need with
  | nil => intro sts n; rfl
  | cons x rest ih =>
    intro sts n
    obtain ⟨idx, cb⟩ := x
    simp only [retryRound]
    rw [ih _ (n + 1), modifyIdx_length]

theorem aligned_modifyIdx (rows : List Row) (sts : List RowState)
    (h : rowsAligned rows sts) (idx : ℕ) (cb : String) (out : QueryOut) :
    rowsAligned rows (modifyIdx (fun st => { st with cells := setA cb out st.cells }) sts idx) := by
  intro j st hj
  rw [modifyIdx_get?] at hj
  by_cases hji : j = idx
  · rw [if_pos hji] at hj
    cases hg : sts.get? j with
    | none => rw [hg] at hj; cases hj
    | some st0 =>
      rw [hg] at hj
      cases hj
      obtain ⟨r, h1, h2, h3⟩ := h j st0 hg
      exact ⟨r, h1, h2, h3⟩
  · rw [if_neg hji] at hj
    exact h j st hj

theorem retryRound_aligned (oracle : ℕ → QueryOut) (round : ℕ) (rows : List Row) :
    ∀ (need : List (ℕ × String)) (sts : List RowState) (n : ℕ),
      rowsAligned rows sts → rowsAligned rows (retryRound oracle round need sts n).1 := by
  intro need
  induction need with
  | nil => intro sts n h; exact h
  | cons x rest ih =>
    intro sts n h
    obtain ⟨idx, cb⟩ := x
    exact ih _ (n + 1) (aligned_modifyIdx rows sts h idx cb (oracle n))

theorem retryRound_prompts (oracle : ℕ → QueryOut) (round : ℕ) (rows : List Row) :
    ∀ (need : List (ℕ × String)) (sts : List RowState) (n : ℕ),
      rowsAligned rows sts →
      (∀ x ∈ need, ∃ st, sts.get? x.1 = some st) →
      ∀ e ∈ (retryRound oracle round need sts n).2.1,
        ∃ r, rows.get? e.rowIdx = some r ∧ e.prompt = buildFullPrompt r := by
  intro need
  induction need with
  | nil => intro sts n _ _ e he; cases he
  | cons x rest ih =>
    intro sts n halign hdom e he
    obtain ⟨idx, cb⟩ := x
    simp only [retryRound, List.mem_cons] at he
    rcases he with rfl | he
    · obtain ⟨st, hst⟩ := hdom (idx, cb) (List.mem_cons_self _ _)
      obtain ⟨r, h1, h2, h3⟩ := halign idx st hst
      refine ⟨r, h1, ?_⟩
      show promptFor sts idx = buildFullPrompt r
      unfold promptFor
      rw [hst]
      show st.promptSent.getD st.row.prompt = buildFullPrompt r
      rw [h3]
      rfl
    · refine ih _ (n + 1) (aligned_modifyIdx rows sts halign idx cb (oracle n)) ?_ e he
      intro x hx
      obtain ⟨st, hst⟩ := hdom x (List.mem_cons_of_mem _ hx)
      rw [modifyIdx_get?]
      by_cases hxi : x.1 = idx
      · rw [if_pos hxi, hst]
        exact ⟨_, rfl⟩
      · rw [if_neg hxi]
        exact ⟨st, hst⟩

theorem retryRound_flag_preserved (oracle : ℕ → QueryOut) (round : ℕ) :
    ∀ (need : List (ℕ × String)) (sts : List RowState) (n : ℕ) (i : ℕ) (cb : String)
      (st : RowState),
      sts.get? i = some st → (∀ x ∈ need, x ≠ (i, cb)) →
      ∃ st', (retryRound oracle round need sts n).1.get? i = some st' ∧
        flagOf st' cb = flagOf st cb := by
  intro need
  induction need with
  | nil => intro sts n i cb st hst _; exact ⟨st, hst, rfl⟩
  | cons x rest ih =>
    intro sts n i cb st hst hne
    obtain ⟨idx, c⟩ := x
    simp only [retryRound]
    by_cases hii : i = idx
    · have hcne : c ≠ cb := by
        intro hcc
        exact hne (idx, c) (List.mem_cons_self _ _) (by rw [hcc, hii])
      obtain ⟨st', hst', hf⟩ := ih
        (modifyIdx (fun st0 => { st0 with cells := setA c (oracle n) st0.cells }) sts idx) (n + 1)
        i cb { st with cells := setA c (oracle n) st.cells }
        (by rw [modifyIdx_get?, if_pos hii, hst]; rfl)
        (fun x hx => hne x (List.mem_cons_of_mem _ hx))
      refine ⟨st', hst', ?_⟩
      rw [hf]
      exact flagOf_set_other st cb c (oracle n) (Ne.symm hcne)
    · obtain ⟨st', hst', hf⟩ := ih
        (modifyIdx (fun st0 => { st0 with cells := setA c (oracle n) st0.cells }) sts idx) (n + 1)
        i cb st
        (by rw [modifyIdx_get?, if_neg hii]; exact hst)
        (fun x hx => hne x (List.mem_cons_of_mem _ hx))
      exact ⟨st', hst', hf⟩

theorem retryPasses_round_ge (oracle : ℕ → QueryOut) (cbs : List String) :
    ∀ (k round : ℕ) (sts : List RowState) (n : ℕ),
      ∀ e ∈ (retryPasses oracle cbs k round sts n).2, round ≤ e.round := by
  intro k
  induction k with
  | zero => intro round sts n e he; cases he
  | succ k ih =>
    intro round sts n e he
    simp only [retryPasses] at he
    by_cases hemp : retryNeeded cbs sts 0 = []
    · rw [if_pos hemp] at he; cases he
    · rw [if_neg hemp] at he
      simp only [List.mem_append] at he
      rcases he with he | he
      · rw [retryRound_round oracle round (retryNeeded cbs sts 0) sts n e he]
      · have := ih (round + 1) _ _ e he
        omega

theorem retryPasses_no_requery (oracle : ℕ → QueryOut) (cbs : List String) :
    ∀ (k round n : ℕ) (sts : List RowState) (i : ℕ) (cb : String) (st : RowState),
      sts.get? i = some st → flagOf st cb = false →
      ∀ e ∈ (retryPasses oracle cbs k round sts n).2, ¬ (e.rowIdx = i ∧ e.chatbot = cb) := by
  intro k
  induction k with
  | zero => intro round n sts i cb st _ _ e he; cases he
  | succ k ih =>
    intro round n sts i cb st hst hflag e he
    have hnotneed : ∀ x ∈ retryNeeded cbs sts 0, x ≠ (i, cb) := by
      intro x hx hxe
      subst hxe
      obtain ⟨j, st', hij, hj, -, hf⟩ := (retryNeeded_mem cbs sts 0 i cb).mp hx
      have : j = i := by omega
      subst this
      rw [hst] at hj
      cases hj
      rw [hflag] at hf
      cases hf
    simp only [retryPasses] at he
    by_cases hemp : retryNeeded cbs sts 0 = []
    · rw [if_pos hemp] at he; cases he
    · rw [if_neg hemp] at he
      simp only [List.mem_append] at he
      rcases he with he | he
      · rintro ⟨h1, h2⟩
        have hmem : (e.rowIdx, e.chatbot) ∈
            (retryRound oracle round (retryNeeded cbs sts 0) sts n).2.1.map
              (fun e => (e.rowIdx, e.chatbot)) :=
          List.mem_map_of_mem _ he
        rw [retryRound_trace oracle round (retryNeeded cbs sts 0) sts n] at hmem
        exact hnotneed (e.rowIdx, e.chatbot) hmem (by rw [h1, h2])
      · obtain ⟨st', hst', hf⟩ := retryRound_flag_preserved oracle round
          (retryNeeded cbs sts 0) sts n i cb st hst hnotneed
        exact ih (round + 1) _ _ i cb st' hst' (by rw [hf]; exact hflag) e he

theorem retryPasses_prompts (oracle : ℕ → QueryOut) (cbs : List String) (rows : List Row) :
    ∀ (k round n : ℕ) (sts : List RowState),
      rowsAligned rows sts →
      ∀ e ∈ (retryPasses oracle cbs k round sts n).2,
        ∃ r, rows.get? e.rowIdx = some r ∧ e.prompt = buildFullPrompt r := by
  intro k
  induction k with
  | zero => intro round n sts _ e he; cases he
  | succ k ih =>
    intro round n sts halign e he
    simp only [retryPasses] at he
    by_cases hemp : retryNeeded cbs sts 0 = []
    · rw [if_pos hemp] at he; cases he
    · rw [if_neg hemp] at he
      simp only [List.mem_append] at he
      rcases he with he | he
      · refine retryRound_prompts oracle round rows (retryNeeded cbs sts 0) sts n halign ?_ e he
        intro x hx
        obtain ⟨j, st, hij, hj, -, -⟩ := (retryNeeded_mem cbs sts 0 x.1 x.2).mp (by
          obtain ⟨a, b⟩ := x; exact hx)
        have : j = x.1 := by omega
        subst this
        exact ⟨st, hj⟩
      · exact ih (round + 1) _ _
          (retryRound_aligned oracle round rows (retryNeeded cbs sts 0) sts n halign) e he

/- ====================================================================
   Claims C5 - C7: the scheduler
   ==================================================================== -/

/-- Claim C5: every query the scheduler ever emits for a row — in the
primary pass and in every retry round — carries the row's canonical
combined prompt `buildFullPrompt` (context first, then prompt, truncated to
2000 characters), built once per row; and that prompt never exceeds 2000
characters. Retries read the stored `prompt_sent`, which the primary pass
set to the same string, so the prompt is identical across all targets and
rounds of a row. -/
theorem C5_canonical_prompt (oracle : ℕ → QueryOut) (rows : List Row) (cbs : List String)
    (m : ℕ) :
    (∀ e ∈ (run_evaluation oracle rows cbs m).2,
        ∃ r, rows.get? e.rowIdx = some r ∧ e.prompt = buildFullPrompt r) ∧
    (∀ r : Row, (buildFullPrompt r).length ≤ 2000) := by
  constructor
  · intro e he
    simp only [run_evaluation, List.mem_append] at he
    rcases he with he | he
    · obtain ⟨-, j, r, hj, hidx, hp, -⟩ := primaryPass_events oracle cbs rows 0 0 e he
      refine ⟨r, ?_, hp⟩
      rw [hidx]
      simpa using hj
    · exact retryPasses_prompts oracle cbs rows m 1 (primaryPass oracle cbs rows 0 0).2.2
        (primaryPass oracle cbs rows 0 0).1 (primaryPass_aligned oracle cbs rows 0 0) e he
  · intro r
    show (List.take 2000 _).length ≤ 2000
    exact List.length_take_le 2000 _

/-- Claim C6: with targets `t1, t2, t3` and rows `r1, r2`, the primary pass
of `run_evaluation` emits queries in the order
`t1r1, t2r1, t3r1, t1r2, t2r2, t3r2` — every target is queried for one row
before any target is queried for the next row (retry rounds all carry a
round number of at least 1 and are filtered out here). -/
theorem C6_round_robin_order (oracle : ℕ → QueryOut) (m : ℕ) (t1 t2 t3 : String)
    (r1 r2 : Row) :
    ((run_evaluation oracle [r1, r2] [t1, t2, t3] m).2.filter
        (fun e => e.round == 0)).map (fun e => (e.chatbot, e.rowIdx))
      = [(t1, 0), (t2, 0), (t3, 0), (t1, 1), (t2, 1), (t3, 1)] := by
  have hpr : (primaryPass oracle [t1, t2, t3] [r1, r2] 0 0).2.1
      = [⟨0, 0, t1, buildFullPrompt r1⟩, ⟨0, 0, t2, buildFullPrompt r1⟩,
         ⟨0, 0, t3, buildFullPrompt r1⟩, ⟨0, 1, t1, buildFullPrompt r2⟩,
         ⟨0, 1, t2, buildFullPrompt r2⟩, ⟨0, 1, t3, buildFullPrompt r2⟩] := rfl
  have h2 : (retryPasses oracle [t1, t2, t3] m 1
        (primaryPass oracle [t1, t2, t3] [r1, r2] 0 0).1
        (primaryPass oracle [t1, t2, t3] [r1, r2] 0 0).2.2).2.filter
        (fun e => e.round == 0) = [] := by
    rw [List.filter_eq_nil_iff]
    intro e he
    have h3 := retryPasses_round_ge oracle [t1, t2, t3] m 1 _ _ e he
    simp only [beq_iff_eq]
    omega
  simp only [run_evaluation, List.filter_append, List.map_append, hpr, h2]
  simp

/-- Witness for C6 at concrete targets and rows. -/
theorem C6_witness :
    ((run_evaluation (fun _ => ⟨"resp", false⟩)
        [⟨"id1", "p1", "", ""⟩, ⟨"id2", "p2", "", ""⟩]
        ["copilot", "chatgpt", "gemini"] 3).2.filter
        (fun e => e.round == 0)).map (fun e => (e.chatbot, e.rowIdx))
      = [("copilot", 0), ("chatgpt", 0), ("gemini", 0),
         ("copilot", 1), ("chatgpt", 1), ("gemini", 1)] :=
  C6_round_robin_order (fun _ => ⟨"resp", false⟩) 3 "copilot" "chatgpt" "gemini"
    ⟨"id1", "p1", "", ""⟩ ⟨"id2", "p2", "", ""⟩

/-- A concrete oracle for witness runs: the first query hits bot detection,
every later one succeeds. -/
def oracleW : ℕ → QueryOut :=
  fun n =>
    if n = 0 then ⟨"ERROR: Bot detected - human verification required", true⟩
    else ⟨"All good here, thanks for asking today!", false⟩

/-- A concrete input row for witness runs. -/
def rowW : Row := ⟨"SP1", "hello prompt", "", ""⟩

/-- Witness for C5: the retry-round event of a concrete run still carries
the row's canonical prompt. -/
theorem C5_witness :
    ∃ r, [rowW].get? 0 = some r ∧ "hello prompt" = buildFullPrompt r :=
  (C5_canonical_prompt oracleW [rowW] ["copilot", "chatgpt"] 3).1
    ⟨1, 0, "copilot", "hello prompt"⟩ (by decide)

/-- Claim C7: (1) a retry round run on the retry-needed snapshot queries
exactly the snapshot's entries, in order; (2) the snapshot holds exactly the
(row, target) entries whose `bot_detected` cell is set (`DEFENSE_TRIGGERED`);
(3) in a full `run_evaluation`, an entry whose primary-pass outcome left the
bot flag clear (success, `TIMED_OUT`, or `INPUT_NOT_FOUND` without a
concurrent challenge all do) is never queried again in any retry round. -/
theorem C7_retry_only_defense (oracle : ℕ → QueryOut) (cbs : List String) :
    (∀ (round : ℕ) (sts : List RowState) (n : ℕ),
        (retryRound oracle round (retryNeeded cbs sts 0) sts n).2.1.map
          (fun e => (e.rowIdx, e.chatbot)) = retryNeeded cbs sts 0) ∧
    (∀ (sts : List RowState) (i : ℕ) (cb : String),
        (i, cb) ∈ retryNeeded cbs sts 0 ↔
          ∃ st, sts.get? i = some st ∧ cb ∈ cbs ∧ flagOf st cb = true) ∧
    (∀ (rows : List Row) (m i : ℕ) (cb : String) (st : RowState),
        (primaryPass oracle cbs rows 0 0).1.get? i = some st → flagOf st cb = false →
        ∀ e ∈ (run_evaluation oracle rows cbs m).2, 1 ≤ e.round →
          ¬ (e.rowIdx = i ∧ e.chatbot = cb)) := by
  refine ⟨?_, ?_, ?_⟩
  · intro round sts n
    exact retryRound_trace oracle round (retryNeeded cbs sts 0) sts n
  · intro sts i cb
    rw [retryNeeded_mem cbs sts 0 i cb]
    constructor
    · rintro ⟨j, st, hij, hj, hc, hf⟩
      have : j = i := by omega
      subst this
      exact ⟨st, hj, hc, hf⟩
    · rintro ⟨st, hj, hc, hf⟩
      exact ⟨i, st, by omega, hj, hc, hf⟩
  · intro rows m i cb st hst hflag e he hr
    simp only [run_evaluation, List.mem_append] at he
    rcases he with he | he
    · obtain ⟨h0, -⟩ := primaryPass_events oracle cbs rows 0 0 e he
      omega
    · exact retryPasses_no_requery oracle cbs m 1 (primaryPass oracle cbs rows 0 0).2.2
        (primaryPass oracle cbs rows 0 0).1 i cb st hst hflag e he

/-- Witness for C7 in a concrete run: copilot hits bot detection on row 0
and is retried, while the chatgpt entry of the same row resolved cleanly,
and the retry event is indeed not a chatgpt re-query. -/
theorem C7_witness : ¬ ((0 : ℕ) = 0 ∧ "copilot" = "chatgpt") :=
  (C7_retry_only_defense oracleW ["copilot", "chatgpt"]).2.2 [rowW] 3 0 "chatgpt"
    ⟨rowW, some "hello prompt",
      [("copilot", ⟨"ERROR: Bot detected - human verification required", true⟩),
       ("chatgpt", ⟨"All good here, thanks for asking today!", false⟩)]⟩
    (by decide) (by decide) ⟨1, 0, "copilot", "hello prompt"⟩ (by decide) (by decide)

/- ====================================================================
   Claims C8 and C10: `query_chatbot`
   ==================================================================== -/

theorem pyStartsWith_error_msg (s : String) :
    pyStartsWith ("ERROR: " ++ s) "ERROR" = true := by
  unfold pyStartsWith
  rw [String.data_append]
  rfl

/-- A fully healthy interaction environment, used as the base of the
concrete worlds in witnesses and counterexamples. -/
def okWorld : QueryWorld :=
  { newPage := .ok ()
    applyStealth := .ok ()
    goto := .ok ()
    botAfterNav := false
    shotBotNav := .ok ()
    shotStep1 := .ok ()
    inputFound := true
    botNoInput := false
    shotNoInput := .ok ()
    typeText := .ok ()
    shotStep2 := .ok ()
    submitViaButton := true
    focusEnter := .ok ()
    botAfterSubmit := false
    shotBotSubmit := .ok ()
    polls := [⟨1000, "abcdefghijklmnopqrstuvwxyz0123", false⟩,
              ⟨9000, "abcdefghijklmnopqrstuvwxyz0123", false⟩]
    tEnd := 0
    botAfterWait := false
    capture := .ok ["shot1.png"]
    shotStep3 := .ok ()
    shotErrResp := .ok ()
    shotExcept := .ok ()
    closePage := .ok () }

/-- Claim C8, counterexample: an exception in `context.new_page()` — a phase
of `query_chatbot` that runs before its `try` block — propagates out of
`query_chatbot` instead of being downgraded to an `ERROR:` result, so not
every exception inside a single query is caught at the query boundary. -/
theorem C8_counterexample :
    query_chatbot "copilot" "hi" none
        { okWorld with newPage := .error "Browser.new_page: browser closed" }
      = .error "Browser.new_page: browser closed" := by
  rfl

/-- Claim C8 (amended): every exception raised inside `query_chatbot`'s
`try` block — navigation, bot checks, input search, typing, submission,
response waiting, screenshot capture — is caught at the query boundary and
downgraded to a result whose response text is `"ERROR: "` followed by the
exception message (so one failing query returns normally and never aborts
the batch), provided the except-handler's debug screenshot and the final
`page.close()` do not themselves raise; exceptions raised before the `try`
block (page creation, stealth application) propagate instead. -/
theorem C8_amended_try_caught (cb fp : String) (pid : Option String) (w : QueryWorld)
    (tr : TryErr)
    (hcb : (List.lookup cb CHATBOT_URLS).isNone = false)
    (hnew : w.newPage = .ok ()) (hst : w.applyStealth = .ok ())
    (hbody : tryBody fp pid w = .thrown tr)
    (hshot : w.shotExcept = .ok ()) (hclose : w.closePage = .ok ()) :
    query_chatbot cb fp pid w = .ok ("ERROR: " ++ tr.msg, tr.shots, tr.bot, tr.rtime) ∧
    pyStartsWith ("ERROR: " ++ tr.msg) "ERROR" = true := by
  refine ⟨?_, pyStartsWith_error_msg tr.msg⟩
  unfold query_chatbot
  rw [if_neg (by rw [hcb]; exact Bool.false_ne_true), hnew, hst, hbody, hshot, hclose]

/-- Witness for the amended C8: a navigation timeout inside the `try` block
is returned as an `ERROR:` result. -/
theorem C8_witness :
    query_chatbot "copilot" "hi" none { okWorld with goto := .error "net::ERR_TIMED_OUT" }
      = .ok ("ERROR: net::ERR_TIMED_OUT", [], false, 0) :=
  (C8_amended_try_caught "copilot" "hi" none
    { okWorld with goto := .error "net::ERR_TIMED_OUT" }
    ⟨"net::ERR_TIMED_OUT", [], false, 0⟩ rfl rfl rfl rfl rfl rfl).1

/-- Claim C10: for every chatbot name with no entry in `CHATBOT_URLS`,
`query_chatbot` returns `("ERROR: Unknown chatbot '<name>'", [], False, 0.0)`
immediately, for every interaction environment `w` — i.e. without opening a
page, navigating, or submitting anything. -/
theorem C10_unknown_chatbot (name fp : String) (pid : Option String) (w : QueryWorld)
    (h : List.lookup name CHATBOT_URLS = none) :
    query_chatbot name fp pid w
      = .ok ("ERROR: Unknown chatbot '" ++ name ++ "'", [], false, 0) := by
  unfold query_chatbot
  rw [if_pos (by rw [h]; rfl)]

/-- Witness for C10 at the unknown name `grok`. -/
theorem C10_witness :
    query_chatbot "grok" "hi" none okWorld
      = .ok ("ERROR: Unknown chatbot 'grok'", [], false, 0) :=
  C10_unknown_chatbot "grok" "hi" none okWorld rfl

/- ====================================================================
   Claim C9: pagination capture
   ==================================================================== -/

/-- The screenshot paths carried by either outcome of the capture loop. -/
def capPaths : CapOut → List String
  | .done p => p
  | .failed p => p

theorem capLoop_succ_shot_err (w : ℕ → CapIter) (g hc : Bool) (rt lc : String)
    (fuel i : ℕ) (prev paths : List String) (e : String)
    (hsh : (w i).shot = .error e) :
    capLoop w g hc rt lc (fuel + 1) i prev paths = .failed paths := by
  unfold capLoop
  rw [hsh]

theorem capLoop_succ_vis_err (w : ℕ → CapIter) (g hc : Bool) (rt lc : String)
    (fuel i : ℕ) (prev paths : List String) (u : Unit) (e : String)
    (hsh : (w i).shot = .ok u) (hv : (w i).vis = .error e) :
    capLoop w g hc rt lc (fuel + 1) i prev paths = .failed (paths ++ [(w i).path]) := by
  unfold capLoop
  rw [hsh, hv]

theorem capLoop_succ_ok (w : ℕ → CapIter) (g hc : Bool) (rt lc : String)
    (fuel i : ℕ) (prev paths : List String) (u : Unit) (v : VisInfo)
    (hsh : (w i).shot = .ok u) (hv : (w i).vis = .ok v) :
    capLoop w g hc rt lc (fuel + 1) i prev paths =
      (if v.success = true then
        if (if g = true then v.contAtEnd = some true
            else (v.isAtEnd = true ∨ v.contAtEnd = some true)) then
          .done (paths ++ [(w i).path])
        else if v.allEnd ∈ prev ∧ 0 < i then
          .done (paths ++ [(w i).path])
        else if ¬ g = true ∧ rt ≠ "" ∧ lc ≠ "" ∧ pyIn (pyTakeRight lc 20) v.allEnd = true then
          .done (paths ++ [(w i).path])
        else if scrollStops (w i) g hc = true then
          .done (paths ++ [(w i).path])
        else
          capLoop w g hc rt lc fuel (i + 1) (prev ++ [v.allEnd]) (paths ++ [(w i).path])
      else if scrollStops (w i) g hc = true then
        .done (paths ++ [(w i).path])
      else
        capLoop w g hc rt lc fuel (i + 1) prev (paths ++ [(w i).path])) := by
  conv_lhs => unfold capLoop
  rw [hsh, hv]

theorem capLoop_length_le (w : ℕ → CapIter) (g hc : Bool) (rt lc : String) :
    ∀ (fuel i : ℕ) (prev paths : List String),
      (capPaths (capLoop w g hc rt lc fuel i prev paths)).length ≤ paths.length + fuel := by
  intro fuel
  induction fuel with
  | zero => intro i prev paths; simp [capLoop, capPaths]
  | succ fuel ih =>
    intro i prev paths
    cases hsh : (w i).shot with
    | error e =>
      rw [capLoop_succ_shot_err w g hc rt lc fuel i prev paths e hsh]
      simp [capPaths]
    | ok u =>
      cases hv : (w i).vis with
      | error e =>
        rw [capLoop_succ_vis_err w g hc rt lc fuel i prev paths u e hsh hv]
        simp [capPaths]
      | ok v =>
        rw [capLoop_succ_ok w g hc rt lc fuel i prev paths u v hsh hv]
        by_cases h1 : v.success = true
        · rw [if_pos h1]
          by_cases h2 : (if g = true then v.contAtEnd = some true
              else (v.isAtEnd = true ∨ v.contAtEnd = some true))
          · rw [if_pos h2]; simp [capPaths]
          · rw [if_neg h2]
            by_cases h3 : v.allEnd ∈ prev ∧ 0 < i
            · rw [if_pos h3]; simp [capPaths]
            · rw [if_neg h3]
              by_cases h4 : ¬ g = true ∧ rt ≠ "" ∧ lc ≠ "" ∧
                  pyIn (pyTakeRight lc 20) v.allEnd = true
              · rw [if_pos h4]; simp [capPaths]
              · rw [if_neg h4]
                by_cases h5 : scrollStops (w i) g hc = true
                · rw [if_pos h5]; simp [capPaths]
                · rw [if_neg h5]
                  have := ih (i + 1) (prev ++ [v.allEnd]) (paths ++ [(w i).path])
                  simp only [List.length_append, List.length_cons, List.length_nil] at this ⊢
                  omega
        · rw [if_neg h1]
          by_cases h5 : scrollStops (w i) g hc = true
          · rw [if_pos h5]; simp [capPaths]
          · rw [if_neg h5]
            have := ih (i + 1) prev (paths ++ [(w i).path])
            simp only [List.length_append, List.length_cons, List.length_nil] at this ⊢
            omega

theorem capLoop_stop_duplicate (w : ℕ → CapIter) (g hc : Bool) (rt lc : String)
    (fuel i : ℕ) (prev paths : List String) (v : VisInfo)
    (hsh : (w i).shot = .ok ()) (hv : (w i).vis = .ok v)
    (hsuc : v.success = true)
    (hend : ¬ (if g = true then v.contAtEnd = some true
        else (v.isAtEnd = true ∨ v.contAtEnd = some true)))
    (hdup : v.allEnd ∈ prev) (hi : 0 < i) :
    capLoop w g hc rt lc (fuel + 1) i prev paths = .done (paths ++ [(w i).path]) := by
  rw [capLoop_succ_ok w g hc rt lc fuel i prev paths () v hsh hv]
  rw [if_pos hsuc, if_neg hend, if_pos ⟨hdup, hi⟩]

theorem capLoop_stop_tail (w : ℕ → CapIter) (hc : Bool) (rt lc : String)
    (fuel i : ℕ) (prev paths : List String) (v : VisInfo)
    (hsh : (w i).shot = .ok ()) (hv : (w i).vis = .ok v)
    (hsuc : v.success = true)
    (hend : ¬ (v.isAtEnd = true ∨ v.contAtEnd = some true))
    (hdup : ¬ (v.allEnd ∈ prev ∧ 0 < i))
    (hrt : rt ≠ "") (hlc : lc ≠ "")
    (htail : pyIn (pyTakeRight lc 20) v.allEnd = true) :
    capLoop w false hc rt lc (fuel + 1) i prev paths = .done (paths ++ [(w i).path]) := by
  rw [capLoop_succ_ok w false hc rt lc fuel i prev paths () v hsh hv]
  rw [if_pos hsuc,
    if_neg (show ¬ (if (false : Bool) = true then v.contAtEnd = some true
      else (v.isAtEnd = true ∨ v.contAtEnd = some true)) by
        rw [if_neg Bool.false_ne_true]; exact hend),
    if_neg hdup, if_pos ⟨Bool.false_ne_true, hrt, hlc, htail⟩]

theorem capture_total_failure (w : CapWorld) (cb rt e p : String)
    (hm : w.mkdirOp = .ok ()) (hs : w.setup = .error e) (hf : w.fallbackShot = .ok p) :
    capture_response_screenshots w cb rt = .ok [p] := by
  unfold capture_response_screenshots
  rw [hm, hs]
  show Except.ok (capFallback [] w) = _
  unfold capFallback
  rw [hf]
  rfl

/-- The iteration worlds of the Gemini counterexample run: the first
screenshot already shows the tail of the final text, the second reports the
container at its end. -/
def iterG0 : CapIter :=
  ⟨"g1.png", .ok (), .ok ⟨true, "bbbbbbbbbbbbbbbbbbbb", false, none⟩, .ok none, .ok (0, 500)⟩

/-- Second iteration of the Gemini counterexample run. -/
def iterG1 : CapIter :=
  ⟨"g2.png", .ok (), .ok ⟨true, "later text", false, some true⟩, .ok none, .ok (500, 1000)⟩

/-- The capture world of the Gemini counterexample run (no scroll
container). -/
def gemWorld : CapWorld :=
  ⟨.ok (), .ok false, fun i => if i = 0 then iterG0 else iterG1, .ok "full.png"⟩

/-- The final response text of the Gemini counterexample run (60 chars, so
the end-detection chunk is its last 40, whose tail of 20 is the `b` run). -/
def gemText : String :=
  "aaaaaaaaaaaaaaaaaaaaaaaaaaaaaaaaaaaaaaaabbbbbbbbbbbbbbbbbbbb"

/-- Claim C9, counterexample: on Gemini the capture loop does not stop when
the visible text fragment matches the tail of the final response text — the
first screenshot's fragment equals that tail, yet a second screenshot is
taken (the tail-match stop is skipped for Gemini in the source). -/
theorem C9_counterexample :
    capture_response_screenshots gemWorld "gemini" gemText = .ok ["g1.png", "g2.png"] ∧
    pyIn (pyTakeRight (computeLastChunk gemText) 20) "bbbbbbbbbbbbbbbbbbbb" = true := by
  decide

/-- Claim C9 (amended): the pagination capture loop takes at most 15
scrolling screenshots (first conjunct); it stops early — with no further
captures — when the text fragment at the bottom of the viewport repeats an
already-seen fragment (second conjunct), or, on non-Gemini targets, when it
matches the tail of the final response text (third conjunct; Gemini skips
this check and relies on container-end and duplicate detection); and when
the capture procedure fails outright before any capture, exactly one
full-height fallback screenshot is taken (fourth conjunct). -/
theorem C9_amended_capture (wc : CapWorld) (cbn : String) :
    (∀ (w : ℕ → CapIter) (g hc : Bool) (rt lc : String) (i : ℕ) (prev paths : List String),
        (capPaths (capLoop w g hc rt lc 15 i prev paths)).length ≤ paths.length + 15) ∧
    (∀ (w : ℕ → CapIter) (g hc : Bool) (rt lc : String) (fuel i : ℕ)
        (prev paths : List String) (v : VisInfo),
        (w i).shot = .ok () → (w i).vis = .ok v → v.success = true →
        ¬ (if g = true then v.contAtEnd = some true
            else (v.isAtEnd = true ∨ v.contAtEnd = some true)) →
        v.allEnd ∈ prev → 0 < i →
        capLoop w g hc rt lc (fuel + 1) i prev paths = .done (paths ++ [(w i).path])) ∧
    (∀ (w : ℕ → CapIter) (hc : Bool) (rt lc : String) (fuel i : ℕ)
        (prev paths : List String) (v : VisInfo),
        (w i).shot = .ok () → (w i).vis = .ok v → v.success = true →
        ¬ (v.isAtEnd = true ∨ v.contAtEnd = some true) →
        ¬ (v.allEnd ∈ prev ∧ 0 < i) → rt ≠ "" → lc ≠ "" →
        pyIn (pyTakeRight lc 20) v.allEnd = true →
        capLoop w false hc rt lc (fuel + 1) i prev paths = .done (paths ++ [(w i).path])) ∧
    (∀ (rt e p : String),
        wc.mkdirOp = .ok () → wc.setup = .error e → wc.fallbackShot = .ok p →
        capture_response_screenshots wc cbn rt = .ok [p]) := by
  refine ⟨?_, ?_, ?_, ?_⟩
  · intro w g hc rt lc i prev paths
    exact capLoop_length_le w g hc rt lc 15 i prev paths
  · intro w g hc rt lc fuel i prev paths v h1 h2 h3 h4 h5 h6
    exact capLoop_stop_duplicate w g hc rt lc fuel i prev paths v h1 h2 h3 h4 h5 h6
  · intro w hc rt lc fuel i prev paths v h1 h2 h3 h4 h5 h6 h7 h8
    exact capLoop_stop_tail w hc rt lc fuel i prev paths v h1 h2 h3 h4 h5 h6 h7 h8
  · intro rt e p h1 h2 h3
    exact capture_total_failure wc cbn rt e p h1 h2 h3

/-- The capture world of the total-failure witness run: the pre-loop setup
raises, the fallback screenshot succeeds. -/
def failCapWorld : CapWorld :=
  ⟨.ok (), .error "evaluate failed: window.innerHeight", fun _ => iterG1, .ok "response_full.png"⟩

/-- Witness for the amended C9: total failure of the capture setup yields
exactly the one full-page fallback screenshot. -/
theorem C9_witness :
    capture_response_screenshots failCapWorld "copilot" "some response text"
      = .ok ["response_full.png"] :=
  (C9_amended_capture failCapWorld "copilot").2.2.2 "some response text"
    "evaluate failed: window.innerHeight" "response_full.png" rfl rfl rfl
